import Mathlib

/-!
# Package `core`: the BPMN 2.0 object model

Package `core` consists of struct type declarations only: it declares no
function, no method, no constructor and no error type.  What a program can do
with the model is therefore what Go itself offers on exported fields:
composite literals (omitted fields take the zero value), reading and assigning
fields (fields of an embedded pointer are promoted, and reading through a nil
embedded pointer panics), and `append` on slice fields.

The embedding is flat, as Go structs are: a pointer field is a typed reference
(or nil), and the objects pointers refer to live in a store (`Heap`), one
arena per pointee type.  Sharing and cycles between objects are therefore
representable exactly as in Go.

* Go `int` / `string` / `bool` are `Int` / `String` / `Bool`;
* a slice `[]*T` is a `List` of pointers;
* every structure field has the Go zero value as its default, so the Lean
  literal `{ A := x }` reads as the Go composite literal `T{A: x}`.
-/

namespace Core

/-- Names of the struct types of package `core` that a pointer field can refer
to.  `Element` and `BPMNDiagram` are used by the sources but declared nowhere
in the package. -/
inductive TypeName
  | BaseElement | ExtensionDefinition | Documentation | ExtensionAttributeValue
  | ExtensionAttributeDefinition | Expression | Element
  | RootElement | Definitions | Relationship | Extension | Import | BPMNDiagram
  | FlowElement | FlowNode | FlowElementsContainer | LaneSet | SequenceFlow
  | Activity | BoundaryEvent | InputOutputSpecification | DataOutputAssociation
  | DataInputAssociation | Property | LoopCharacteristics | ResourceRole
  | Task | ServiceTask | ReceiveTask | SendTask | ScriptTask | BusinessRuleTask
  | UserTask | ManualTask | SubProcess | AdHocSubProcess | Transaction
  | CallActivity | CallableElement | InputOutputBinding | Interface
  | Operation | Message | ItemDefinition | Rendering | Artifact
  | StandardLoopCharacteristics | MultiInstanceLoopCharacteristics
  | DataInput | DataOutput | ItemAwareElement | EventDefinition
  | ComplexBahaviorDefinition | FormalExpression | ImplicitThrowEvent
  | ResourceAssignmentExpression | Resource | ResourceParameterBinding
  | Event | ThrowEvent | CatchEvent | StartEvent | EndEvent
  | IntermediateThrowEvent | IntermediateCatchEvent
  | Process | Collaboration | CorrelationSubscription
  | CorrelationPropertyBinding
  | Gateway | Performer | HumanPerformer | ResourceParameter
  deriving DecidableEq, Repr

/-- A Go pointer `*T`: nil, or a reference to the object at address `addr` of
the arena of `T` in the store.  Pointers to different types are different
types, as in Go.  The conversion Go allows between `*FlowNode` and
`*FlowElement`, whose structs have identical underlying types, is
`Heap.toFlowElement`. -/
inductive Ptr (T : TypeName)
  | nil
  | ref (addr : Nat)
  deriving DecidableEq, Repr

/-- The objects of type `T` of a store, listed by address. -/
structure Arena (T : TypeName) (α : Type) where
  objs : List α := []
  deriving DecidableEq, Repr

/-- Go `*p`: the object a pointer refers to; `none` when `p` is nil (the
dereference panics) or refers to nothing in the arena. -/
def Arena.deref {T : TypeName} {α : Type} (a : Arena T α) : Ptr T → Option α
  | .nil => none
  | .ref n => a.objs[n]?

/-- A pointer is live in an arena when it is nil or refers to an object of the
arena.  Go pointers are always live: a non-nil pointer refers to an object. -/
def Arena.live {T : TypeName} {α : Type} (a : Arena T α) : Ptr T → Bool
  | .nil => true
  | .ref n => decide (n < a.objs.length)

/-- Go `&T{...}`: a new object is placed in the arena and its address is
returned. -/
def Arena.alloc {T : TypeName} {α : Type} (a : Arena T α) (x : α) : Arena T α × Ptr T :=
  (⟨a.objs ++ [x]⟩, .ref a.objs.length)

/-! ## foundation.go -/

/-- Go `type BaseElement struct`. -/
structure BaseElement where
  ID : String := ""
  ExtensionDefinitions : List (Ptr .ExtensionDefinition) := []
  Documentation : List (Ptr .Documentation) := []
  ExtensionValues : List (Ptr .ExtensionAttributeValue) := []
  deriving DecidableEq, Repr

/-- Go `type RootElement struct`: an embedded `*BaseElement` and a link to the
owning `Definitions`. -/
structure RootElement where
  BaseElement : Ptr .BaseElement := .nil
  Definition : Ptr .Definitions := .nil
  deriving DecidableEq, Repr

/-! ## common.go -/

/-- Go `type Expression struct { *BaseElement }`. -/
structure Expression where
  BaseElement : Ptr .BaseElement := .nil
  deriving DecidableEq, Repr

/-- Go `type Message struct`. -/
structure Message where
  BaseElement : Ptr .BaseElement := .nil
  Name : String := ""
  Item : Ptr .ItemDefinition := .nil
  deriving DecidableEq, Repr

/-- Go `type CallableElement struct`. -/
structure CallableElement where
  IOSpecification : Ptr .InputOutputSpecification := .nil
  IOBinding : Ptr .InputOutputBinding := .nil
  SupportedInterfaces : Ptr .Interface := .nil
  Name : String := ""
  deriving DecidableEq, Repr

/-- Go `type FlowElement struct`. -/
structure FlowElement where
  BaseElement : Ptr .BaseElement := .nil
  Name : String := ""
  deriving DecidableEq, Repr

/-- Go `type FlowElementsContainer struct`. -/
structure FlowElementsContainer where
  BaseElement : Ptr .BaseElement := .nil
  FlowElements : List (Ptr .FlowElement) := []
  LaneSets : List (Ptr .LaneSet) := []
  deriving DecidableEq, Repr

/-- Go `type FlowNode struct`.  It embeds `*BaseElement` and has its own
`Name`; it does not embed `FlowElement`. -/
structure FlowNode where
  BaseElement : Ptr .BaseElement := .nil
  Name : String := ""
  deriving DecidableEq, Repr

/-- Go `type SequenceFlow struct`. -/
structure SequenceFlow where
  FlowElement : Ptr .FlowElement := .nil
  IsImmediate : Bool := false
  Source : Ptr .FlowNode := .nil
  Target : Ptr .FlowNode := .nil
  ConditionExpression : Ptr .Expression := .nil
  deriving DecidableEq, Repr

/-! ## activities.go -/

/-- Go `type Activity struct`.  `StartQuantity` and `CompletionQuantity` are
plain `int` fields. -/
structure Activity where
  FlowNode : Ptr .FlowNode := .nil
  IsForCompensation : Bool := false
  StartQuantity : Int := 0
  CompletionQuantity : Int := 0
  BoundaryEvents : List (Ptr .BoundaryEvent) := []
  IOSpecification : Ptr .InputOutputSpecification := .nil
  DataOutputAssociations : List (Ptr .DataOutputAssociation) := []
  DataInputAssociations : List (Ptr .DataInputAssociation) := []
  Properties : List (Ptr .Property) := []
  Default : Ptr .SequenceFlow := .nil
  LoopCharacteristics : Ptr .LoopCharacteristics := .nil
  Resources : List (Ptr .ResourceRole) := []
  deriving DecidableEq, Repr

/-- Go `type CallActivity struct { *Activity; CalledElement *CallableElement }`. -/
structure CallActivity where
  Activity : Ptr .Activity := .nil
  CalledElement : Ptr .CallableElement := .nil
  deriving DecidableEq, Repr

/-- Go `type Task struct { *Activity }`. -/
structure Task where
  Activity : Ptr .Activity := .nil
  deriving DecidableEq, Repr

/-- Go `type ReceiveTask struct`. -/
structure ReceiveTask where
  Task : Ptr .Task := .nil
  Implementation : String := ""
  Instantiate : Bool := false
  Message : Ptr .Message := .nil
  Operation : Ptr .Operation := .nil
  deriving DecidableEq, Repr

/-- Go `type ServiceTask struct`. -/
structure ServiceTask where
  Task : Ptr .Task := .nil
  Implementation : String := ""
  Operation : Ptr .Operation := .nil
  deriving DecidableEq, Repr

/-- Go `type SendTask struct`. -/
structure SendTask where
  Task : Ptr .Task := .nil
  Implementation : String := ""
  Message : Ptr .Message := .nil
  Operation : Ptr .Operation := .nil
  deriving DecidableEq, Repr

/-- Go `type ScriptTask struct`. -/
structure ScriptTask where
  Task : Ptr .Task := .nil
  ScriptFormat : String := ""
  Script : String := ""
  deriving DecidableEq, Repr

/-- Go `type BusinessRuleTask struct`. -/
structure BusinessRuleTask where
  Task : Ptr .Task := .nil
  Implementation : String := ""
  deriving DecidableEq, Repr

/-- Go `type SubProcess struct`: it embeds both `*FlowElementsContainer` and
`*Activity`. -/
structure SubProcess where
  FlowElementsContainer : Ptr .FlowElementsContainer := .nil
  Activity : Ptr .Activity := .nil
  Artifacts : List (Ptr .Artifact) := []
  TriggeredByEvent : Bool := false
  deriving DecidableEq, Repr

/-- Go `type LoopCharacteristics struct {}` ("left empty intentionally"). -/
structure LoopCharacteristics where
  deriving DecidableEq, Repr

/-- Go `type StandardLoopCharacteristics struct`. -/
structure StandardLoopCharacteristics where
  LoopCharacteristics : Ptr .LoopCharacteristics := .nil
  TestBefore : Bool := false
  LoopMaximum : Ptr .Expression := .nil
  LoopCondition : Ptr .Expression := .nil
  deriving DecidableEq, Repr

/-- Go `type MultiInstanceBehavior string`. -/
abbrev MultiInstanceBehavior : Type := String

/-- Go `MultiInstanceBehaviorNone = MultiInstanceBehavior("None")`. -/
def MultiInstanceBehaviorNone : MultiInstanceBehavior := "None"

/-- Go `MultiInstanceBehaviorOne = MultiInstanceBehavior("One")`. -/
def MultiInstanceBehaviorOne : MultiInstanceBehavior := "One"

/-- Go `MultiInstanceBehaviorAll = MultiInstanceBehavior("All")`. -/
def MultiInstanceBehaviorAll : MultiInstanceBehavior := "All"

/-- Go `MultiInstanceBehaviorComplex = MultiInstanceBehavior("Complex")`. -/
def MultiInstanceBehaviorComplex : MultiInstanceBehavior := "Complex"

/-- Go `type MultiInstanceLoopCharacteristics struct`. -/
structure MultiInstanceLoopCharacteristics where
  LoopCharacteristics : Ptr .LoopCharacteristics := .nil
  IsSequential : Bool := false
  Behavior : MultiInstanceBehavior := ""
  LoopCardinality : Ptr .Expression := .nil
  CompletionCondition : Ptr .Expression := .nil
  InputDataItem : Ptr .DataInput := .nil
  OutputDataItem : Ptr .DataOutput := .nil
  LoopDataOutput : Ptr .ItemAwareElement := .nil
  LoopDataInput : Ptr .ItemAwareElement := .nil
  OneBehaviourElement : Ptr .EventDefinition := .nil
  ComplexBahaviorDefinition : Ptr .ComplexBahaviorDefinition := .nil
  NoneBehaviorEvent : Ptr .EventDefinition := .nil
  deriving DecidableEq, Repr

/-- Go `type ComplexBahaviorDefinition struct`. -/
structure ComplexBahaviorDefinition where
  Condition : Ptr .FormalExpression := .nil
  Event : Ptr .ImplicitThrowEvent := .nil
  deriving DecidableEq, Repr

/-- Go `type ResourceRole struct`. -/
structure ResourceRole where
  Name : String := ""
  ResourceAssignmentExpression : Ptr .ResourceAssignmentExpression := .nil
  Resource : Ptr .Resource := .nil
  ResourceParameterBindings : List (Ptr .ResourceParameterBinding) := []
  deriving DecidableEq, Repr

/-- Go `type AdHocOrdering string`. -/
abbrev AdHocOrdering : Type := String

/-- Go `AdHocOrderingParallel = AdHocOrdering("Parallel")`. -/
def AdHocOrderingParallel : AdHocOrdering := "Parallel"

/-- Go `AdHocOrderingSequential = AdHocOrdering("Sequential")`. -/
def AdHocOrderingSequential : AdHocOrdering := "Sequential"

/-- Go `type AdHocSubProcess struct`; `CompletionCondition` is an `Expression`
held by value. -/
structure AdHocSubProcess where
  SubProcess : Ptr .SubProcess := .nil
  Ordering : AdHocOrdering := ""
  CancelRemainingInstances : Bool := false
  CompletionCondition : Expression := {}
  deriving DecidableEq, Repr

/-- Go `type Transaction struct`. -/
structure Transaction where
  SubProcess : Ptr .SubProcess := .nil
  Protocol : String := ""
  Method : String := ""
  deriving DecidableEq, Repr

/-! ## human_interactions.go -/

/-- Go `type UserTask struct`. -/
structure UserTask where
  Task : Ptr .Task := .nil
  Implementation : String := ""
  Renderings : List (Ptr .Rendering) := []
  deriving DecidableEq, Repr

/-- Go `type ManualTask struct`. -/
structure ManualTask where
  Task : Ptr .Task := .nil
  Implementation : String := ""
  deriving DecidableEq, Repr

/-! ## events.go -/

/-- Go `type Event struct`. -/
structure Event where
  FlowNode : Ptr .FlowNode := .nil
  Properties : List (Ptr .Property) := []
  deriving DecidableEq, Repr

/-- Go `type ThrowEvent struct`. -/
structure ThrowEvent where
  Event : Ptr .Event := .nil
  DataInputs : List (Ptr .DataInput) := []
  deriving DecidableEq, Repr

/-- Go `type EndEvent struct { *ThrowEvent }`. -/
structure EndEvent where
  ThrowEvent : Ptr .ThrowEvent := .nil
  deriving DecidableEq, Repr

/-- Go `type CatchEvent struct`. -/
structure CatchEvent where
  Event : Ptr .Event := .nil
  DataOutputs : List (Ptr .DataOutput) := []
  deriving DecidableEq, Repr

/-- Go `type StartEvent struct { *CatchEvent }`. -/
structure StartEvent where
  CatchEvent : Ptr .CatchEvent := .nil
  deriving DecidableEq, Repr

/-- Go `type BoundaryEvent struct`: `AttachedTo` is a pointer to an
`Activity`, not an identifier. -/
structure BoundaryEvent where
  CatchEvent : Ptr .CatchEvent := .nil
  CancelActivity : Bool := false
  AttachedTo : Ptr .Activity := .nil
  deriving DecidableEq, Repr

/-! ## infrastructure.go -/

/-- Go `type Definitions struct`. -/
structure Definitions where
  BaseElement : Ptr .BaseElement := .nil
  Name : String := ""
  TargetNamespace : String := ""
  ExpressionLanguage : String := ""
  TypeLanguage : String := ""
  Exporter : String := ""
  ExporterVersion : String := ""
  RootElements : List (Ptr .RootElement) := []
  Relationships : List (Ptr .Relationship) := []
  Extenstions : List (Ptr .Extension) := []
  Imports : List (Ptr .Import) := []
  Diagrams : List (Ptr .BPMNDiagram) := []
  deriving DecidableEq, Repr

/-! ## process.go -/

/-- Go `type Process struct`: it embeds `*FlowElementsContainer` and
`*CallableElement` (and no `RootElement`). -/
structure Process where
  FlowElementsContainer : Ptr .FlowElementsContainer := .nil
  CallableElement : Ptr .CallableElement := .nil
  IsClosed : Bool := false
  IsExecutable : Bool := false
  Artifacts : List (Ptr .Artifact) := []
  CorrelationSubscriptions : List (Ptr .CorrelationSubscription) := []
  CorrelationPropertyBinding : List (Ptr .CorrelationPropertyBinding) := []
  Properties : List (Ptr .Property) := []
  Supports : List (Ptr .Process) := []
  DefinitionalCollaboration : List (Ptr .Collaboration) := []
  deriving DecidableEq, Repr

/-! ## foundation.go, common.go, activities.go: extension values and resources -/

/-- Go `type ExtensionAttributeValue struct`. -/
structure ExtensionAttributeValue where
  Value : Ptr .Element := .nil
  ValueRef : Ptr .Element := .nil
  ExtensionAttributeDefinition : Ptr .ExtensionAttributeDefinition := .nil
  deriving DecidableEq, Repr

/-- Go `type ExtensionAttributeDefinition struct`. -/
structure ExtensionAttributeDefinition where
  Name : String := ""
  «Type» : String := ""
  IsReference : Bool := false
  deriving DecidableEq, Repr

/-- Go `type Resource struct`: it embeds no `BaseElement`. -/
structure Resource where
  Name : String := ""
  ResourceParameters : List (Ptr .ResourceParameter) := []
  deriving DecidableEq, Repr

/-- Go `type Error struct`: it embeds `*RootElement`. -/
structure Error where
  RootElement : Ptr .RootElement := .nil
  Name : String := ""
  ErrorCode : String := ""
  IsClosed : Bool := false
  Structure : Ptr .ItemDefinition := .nil
  deriving DecidableEq, Repr

/-- Go `type Performer struct { *ResourceRole }` (process.go). -/
structure Performer where
  ResourceRole : Ptr .ResourceRole := .nil
  deriving DecidableEq, Repr

/-- Go `type HumanPerformer struct { *Performer }` (human_interactions.go). -/
structure HumanPerformer where
  Performer : Ptr .Performer := .nil
  deriving DecidableEq, Repr

/-- Go `type PotentialOwner struct { *HumanPerformer }` (human_interactions.go). -/
structure PotentialOwner where
  HumanPerformer : Ptr .HumanPerformer := .nil
  deriving DecidableEq, Repr

/-! ## service.go -/

/-- Go `type Interface struct`: it embeds `*RootElement`. -/
structure Interface where
  RootElement : Ptr .RootElement := .nil
  Operations : List (Ptr .Operation) := []
  Implementation : Ptr .Element := .nil
  deriving DecidableEq, Repr

/-! ## gateway.go -/

/-- Go `type GatewayDirection int`. -/
abbrev GatewayDirection : Type := Int

/-- Go `GatewayDirectionUnspecified = GatewayDirection(0)`. -/
def GatewayDirectionUnspecified : GatewayDirection := 0

/-- Go `GatewayDirectionConverging = GatewayDirection(1)`. -/
def GatewayDirectionConverging : GatewayDirection := 1

/-- Go `GatewayDirectionDiverging = GatewayDirection(2)`. -/
def GatewayDirectionDiverging : GatewayDirection := 2

/-- Go `GatewayDirectionMixer = GatewayDirection(3)`. -/
def GatewayDirectionMixer : GatewayDirection := 3

/-- Go `type EventBasedGatewayType int`. -/
abbrev EventBasedGatewayType : Type := Int

/-- Go `EventBasedGatewayTypeParallel = EventBasedGatewayType(0)`. -/
def EventBasedGatewayTypeParallel : EventBasedGatewayType := 0

/-- Go `EventBasedGatewayTypeExclusive = EventBasedGatewayType(1)`. -/
def EventBasedGatewayTypeExclusive : EventBasedGatewayType := 1

/-- Go `type Gateway struct { *FlowNode; GatewayDirection GatewayDirection }`. -/
structure Gateway where
  FlowNode : Ptr .FlowNode := .nil
  GatewayDirection : GatewayDirection := 0
  deriving DecidableEq, Repr

/-- Go `type ExclusiveGateway struct`. -/
structure ExclusiveGateway where
  Gateway : Ptr .Gateway := .nil
  Default : Ptr .SequenceFlow := .nil
  deriving DecidableEq, Repr

/-- Go `type InclusveGateway struct` (the inclusive gateway, as the source
spells it). -/
structure InclusveGateway where
  Gateway : Ptr .Gateway := .nil
  Default : Ptr .SequenceFlow := .nil
  deriving DecidableEq, Repr

/-- Go `type ParallelGateway struct`. -/
structure ParallelGateway where
  Gateway : Ptr .Gateway := .nil
  Default : Ptr .SequenceFlow := .nil
  deriving DecidableEq, Repr

/-- Go `type ComplexGateway struct`. -/
structure ComplexGateway where
  Gateway : Ptr .Gateway := .nil
  Default : Ptr .SequenceFlow := .nil
  ActivationCondiction : Ptr .Expression := .nil
  deriving DecidableEq, Repr

/-- Go `type EventBasedGateway struct`: two fields and nothing embedded. -/
structure EventBasedGateway where
  Instantiate : Bool := false
  EventGatewayType : EventBasedGatewayType := 0
  deriving DecidableEq, Repr

/-! ## The store -/

/-- The objects pointers refer to, one arena per pointee type.  Pointers to a
type the store has no arena for are kept in the structs but refer to nothing
in the store. -/
structure Heap where
  baseElements : Arena .BaseElement BaseElement := {}
  rootElements : Arena .RootElement RootElement := {}
  definitions : Arena .Definitions Definitions := {}
  expressions : Arena .Expression Expression := {}
  messages : Arena .Message Message := {}
  callableElements : Arena .CallableElement CallableElement := {}
  flowElements : Arena .FlowElement FlowElement := {}
  flowNodes : Arena .FlowNode FlowNode := {}
  flowElementsContainers : Arena .FlowElementsContainer FlowElementsContainer := {}
  sequenceFlows : Arena .SequenceFlow SequenceFlow := {}
  activities : Arena .Activity Activity := {}
  tasks : Arena .Task Task := {}
  subProcesses : Arena .SubProcess SubProcess := {}
  events : Arena .Event Event := {}
  throwEvents : Arena .ThrowEvent ThrowEvent := {}
  catchEvents : Arena .CatchEvent CatchEvent := {}
  boundaryEvents : Arena .BoundaryEvent BoundaryEvent := {}
  processes : Arena .Process Process := {}
  gateways : Arena .Gateway Gateway := {}
  resourceRoles : Arena .ResourceRole ResourceRole := {}
  performers : Arena .Performer Performer := {}
  humanPerformers : Arena .HumanPerformer HumanPerformer := {}
  extensionAttributeValues : Arena .ExtensionAttributeValue ExtensionAttributeValue := {}
  extensionAttributeDefinitions :
    Arena .ExtensionAttributeDefinition ExtensionAttributeDefinition := {}
  deriving DecidableEq, Repr

/-- Go `&Activity{...}`: the activity is placed in the store. -/
def Heap.newActivity (h : Heap) (a : Activity) : Heap × Ptr .Activity :=
  ({ h with activities := (h.activities.alloc a).1 }, (h.activities.alloc a).2)

/-- Go `&Task{...}`: the task is placed in the store. -/
def Heap.newTask (h : Heap) (t : Task) : Heap × Ptr .Task :=
  ({ h with tasks := (h.tasks.alloc t).1 }, (h.tasks.alloc t).2)

/-- Go `&SubProcess{...}`: the sub-process is placed in the store. -/
def Heap.newSubProcess (h : Heap) (s : SubProcess) : Heap × Ptr .SubProcess :=
  ({ h with subProcesses := (h.subProcesses.alloc s).1 }, (h.subProcesses.alloc s).2)

/-- Go `&Task{Activity: &Activity{...}}`: the activity, then the task that
embeds it, are placed in the store. -/
def Heap.newTaskOf (h : Heap) (a : Activity) : Heap × Ptr .Task :=
  (h.newActivity a).1.newTask { Activity := (h.newActivity a).2 }

/-- Go `&SubProcess{Activity: &Activity{...}, ...}`: the activity, then the
sub-process `s` made to embed it, are placed in the store. -/
def Heap.newSubProcessOf (h : Heap) (a : Activity) (s : SubProcess) : Heap × Ptr .SubProcess :=
  (h.newActivity a).1.newSubProcess { s with Activity := (h.newActivity a).2 }

/-! ## Promoted fields

Reading `v.F`, where `F` is a field of a struct embedded by pointer, follows
the embedded pointers; the result is `none` when the read panics on a nil
pointer. -/

/-- Go `n.ID` for a `*FlowNode`: `n.BaseElement.ID`. -/
def Heap.flowNodeID (h : Heap) (p : Ptr .FlowNode) : Option String := do
  let n ← h.flowNodes.deref p
  let b ← h.baseElements.deref n.BaseElement
  pure b.ID

/-- Go `e.ID` for a `*FlowElement`: `e.BaseElement.ID`. -/
def Heap.flowElementID (h : Heap) (p : Ptr .FlowElement) : Option String := do
  let e ← h.flowElements.deref p
  let b ← h.baseElements.deref e.BaseElement
  pure b.ID

/-- Go `a.ID` for an `*Activity`: `a.FlowNode.BaseElement.ID`. -/
def Heap.activityID (h : Heap) (p : Ptr .Activity) : Option String := do
  let a ← h.activities.deref p
  h.flowNodeID a.FlowNode

/-- Go `p.ID` for a `*Process`: `p.FlowElementsContainer.BaseElement.ID` (the
embedded `CallableElement` has no `ID`). -/
def Heap.processID (h : Heap) (p : Ptr .Process) : Option String := do
  let x ← h.processes.deref p
  let c ← h.flowElementsContainers.deref x.FlowElementsContainer
  let b ← h.baseElements.deref c.BaseElement
  pure b.ID

/-- Go `m.ID` for a `*Message`: `m.BaseElement.ID`. -/
def Heap.messageID (h : Heap) (p : Ptr .Message) : Option String := do
  let m ← h.messages.deref p
  let b ← h.baseElements.deref m.BaseElement
  pure b.ID

/-- Go `e.ID` for an `*Event`: `e.FlowNode.BaseElement.ID`. -/
def Heap.eventID (h : Heap) (p : Ptr .Event) : Option String := do
  let e ← h.events.deref p
  h.flowNodeID e.FlowNode

/-- Go `v.ID` for a `StartEvent`: `v.CatchEvent.Event.FlowNode.BaseElement.ID`. -/
def StartEvent.ID (h : Heap) (v : StartEvent) : Option String := do
  let c ← h.catchEvents.deref v.CatchEvent
  h.eventID c.Event

/-- Go `v.ID` for an `EndEvent`: `v.ThrowEvent.Event.FlowNode.BaseElement.ID`. -/
def EndEvent.ID (h : Heap) (v : EndEvent) : Option String := do
  let t ← h.throwEvents.deref v.ThrowEvent
  h.eventID t.Event

/-- Go `v.ID` for a `ServiceTask`: `v.Task.Activity.FlowNode.BaseElement.ID`. -/
def ServiceTask.ID (h : Heap) (v : ServiceTask) : Option String := do
  let t ← h.tasks.deref v.Task
  h.activityID t.Activity

/-- Go `for _, e := range c.FlowElements { ... e.ID ... }`: the identifiers of
the flow elements of a container, in slice order. -/
def FlowElementsContainer.ids (h : Heap) (c : FlowElementsContainer) : List (Option String) :=
  c.FlowElements.map h.flowElementID

/-- Go `t.CompletionQuantity` for a `Task`: `t.Activity.CompletionQuantity`. -/
def Task.CompletionQuantity (h : Heap) (t : Task) : Option Int := do
  let a ← h.activities.deref t.Activity
  pure a.CompletionQuantity

/-- Go `t.StartQuantity` for a `Task`: `t.Activity.StartQuantity`. -/
def Task.StartQuantity (h : Heap) (t : Task) : Option Int := do
  let a ← h.activities.deref t.Activity
  pure a.StartQuantity

/-- Go `v.StartQuantity` for a `ServiceTask`: `v.Task.Activity.StartQuantity`. -/
def ServiceTask.StartQuantity (h : Heap) (v : ServiceTask) : Option Int := do
  let t ← h.tasks.deref v.Task
  t.StartQuantity h

/-- Go `v.CompletionQuantity` for a struct embedding `*Task`:
`v.Task.Activity.CompletionQuantity`. -/
def taskCompletionQuantity (h : Heap) (p : Ptr .Task) : Option Int := do
  let t ← h.tasks.deref p
  t.CompletionQuantity h

/-- Go `s.CompletionQuantity` for a `SubProcess`: `s.Activity.CompletionQuantity`. -/
def SubProcess.CompletionQuantity (h : Heap) (s : SubProcess) : Option Int := do
  let a ← h.activities.deref s.Activity
  pure a.CompletionQuantity

/-- Go `v.CompletionQuantity` for a struct embedding `*SubProcess`:
`v.SubProcess.Activity.CompletionQuantity`. -/
def subProcessCompletionQuantity (h : Heap) (p : Ptr .SubProcess) : Option Int := do
  let s ← h.subProcesses.deref p
  s.CompletionQuantity h

/-- Go `v.CompletionQuantity` for a `ServiceTask`. -/
def ServiceTask.CompletionQuantity (h : Heap) (v : ServiceTask) : Option Int :=
  taskCompletionQuantity h v.Task

/-- Go `v.CompletionQuantity` for a `UserTask`. -/
def UserTask.CompletionQuantity (h : Heap) (v : UserTask) : Option Int :=
  taskCompletionQuantity h v.Task

/-- Go `v.CompletionQuantity` for a `ScriptTask`. -/
def ScriptTask.CompletionQuantity (h : Heap) (v : ScriptTask) : Option Int :=
  taskCompletionQuantity h v.Task

/-- Go `v.CompletionQuantity` for a `SendTask`. -/
def SendTask.CompletionQuantity (h : Heap) (v : SendTask) : Option Int :=
  taskCompletionQuantity h v.Task

/-- Go `v.CompletionQuantity` for a `ReceiveTask`. -/
def ReceiveTask.CompletionQuantity (h : Heap) (v : ReceiveTask) : Option Int :=
  taskCompletionQuantity h v.Task

/-- Go `v.CompletionQuantity` for a `BusinessRuleTask`. -/
def BusinessRuleTask.CompletionQuantity (h : Heap) (v : BusinessRuleTask) : Option Int :=
  taskCompletionQuantity h v.Task

/-- Go `v.CompletionQuantity` for a `ManualTask`. -/
def ManualTask.CompletionQuantity (h : Heap) (v : ManualTask) : Option Int :=
  taskCompletionQuantity h v.Task

/-- Go `v.CompletionQuantity` for an `AdHocSubProcess`. -/
def AdHocSubProcess.CompletionQuantity (h : Heap) (v : AdHocSubProcess) : Option Int :=
  subProcessCompletionQuantity h v.SubProcess

/-- Go `v.CompletionQuantity` for a `Transaction`. -/
def Transaction.CompletionQuantity (h : Heap) (v : Transaction) : Option Int :=
  subProcessCompletionQuantity h v.SubProcess

/-- Go `v.CompletionQuantity` for a `CallActivity`: `v.Activity.CompletionQuantity`. -/
def CallActivity.CompletionQuantity (h : Heap) (v : CallActivity) : Option Int := do
  let a ← h.activities.deref v.Activity
  pure a.CompletionQuantity

/-! ## Built-in operations on the exported fields

The package declares no operation of its own; these are the Go statements a
caller writes to add to a slice field or to assign a pointer field. -/

/-- Go `c.FlowElements = append(c.FlowElements, e)`. -/
def FlowElementsContainer.appendFlowElement (c : FlowElementsContainer)
    (e : Ptr .FlowElement) : FlowElementsContainer :=
  { c with FlowElements := c.FlowElements ++ [e] }

/-- Go `d.RootElements = append(d.RootElements, r)`. -/
def Definitions.appendRootElement (d : Definitions) (r : Ptr .RootElement) : Definitions :=
  { d with RootElements := d.RootElements ++ [r] }

/-- Go `a.BoundaryEvents = append(a.BoundaryEvents, b)`. -/
def Activity.appendBoundaryEvent (a : Activity) (b : Ptr .BoundaryEvent) : Activity :=
  { a with BoundaryEvents := a.BoundaryEvents ++ [b] }

/-- Go `a.LoopCharacteristics = m.LoopCharacteristics`: the only way to attach
a `MultiInstanceLoopCharacteristics` to an activity, whose field has type
`*LoopCharacteristics`, is to assign the embedded `*LoopCharacteristics`. -/
def Activity.attachMultiInstance (a : Activity) (m : MultiInstanceLoopCharacteristics) :
    Activity :=
  { a with LoopCharacteristics := m.LoopCharacteristics }

/-- Go assignments `m.Behavior = b; m.NoneBehaviorEvent = n;
m.OneBehaviourElement = o; m.ComplexBahaviorDefinition = c`. -/
def MultiInstanceLoopCharacteristics.setBehavior (m : MultiInstanceLoopCharacteristics)
    (b : MultiInstanceBehavior) (n o : Ptr .EventDefinition)
    (c : Ptr .ComplexBahaviorDefinition) : MultiInstanceLoopCharacteristics :=
  { m with
    Behavior := b
    NoneBehaviorEvent := n
    OneBehaviourElement := o
    ComplexBahaviorDefinition := c }

/-- Go composite literal `Activity{FlowNode: ..., IsForCompensation: ..., ...}`
that gives every field of `a0` except `StartQuantity` and
`CompletionQuantity`: the two omitted fields take the zero value. -/
def Activity.withoutQuantities (a0 : Activity) : Activity :=
  { FlowNode := a0.FlowNode
    IsForCompensation := a0.IsForCompensation
    BoundaryEvents := a0.BoundaryEvents
    IOSpecification := a0.IOSpecification
    DataOutputAssociations := a0.DataOutputAssociations
    DataInputAssociations := a0.DataInputAssociations
    Properties := a0.Properties
    Default := a0.Default
    LoopCharacteristics := a0.LoopCharacteristics
    Resources := a0.Resources }

/-! ## The object graph

Traversing the model is following pointer fields.  `pointers` lists, for each
struct, the objects its pointer fields refer to; the type of a location is the
pointee type the field is declared with. -/

/-- The location of an object: its type and its address in the arena of that
type. -/
structure Loc where
  ty : TypeName
  addr : Nat
  deriving DecidableEq, Repr

/-- The location a pointer refers to, if it is not nil. -/
def ptrLoc {T : TypeName} : Ptr T → List Loc
  | .nil => []
  | .ref n => [⟨T, n⟩]

/-- The locations the non-nil pointers of a slice refer to. -/
def ptrLocs {T : TypeName} (ps : List (Ptr T)) : List Loc :=
  (ps.map ptrLoc).flatten

/-- Pointer fields of `BaseElement`. -/
def BaseElement.pointers (b : BaseElement) : List Loc :=
  ptrLocs b.ExtensionDefinitions ++ ptrLocs b.Documentation ++ ptrLocs b.ExtensionValues

/-- Pointer fields of `RootElement`. -/
def RootElement.pointers (r : RootElement) : List Loc :=
  ptrLoc r.BaseElement ++ ptrLoc r.Definition

/-- Pointer fields of `Definitions`. -/
def Definitions.pointers (d : Definitions) : List Loc :=
  ptrLoc d.BaseElement ++ ptrLocs d.RootElements ++ ptrLocs d.Relationships ++
  ptrLocs d.Extenstions ++ ptrLocs d.Imports ++ ptrLocs d.Diagrams

/-- Pointer fields of `Expression`. -/
def Expression.pointers (e : Expression) : List Loc :=
  ptrLoc e.BaseElement

/-- Pointer fields of `Message`. -/
def Message.pointers (m : Message) : List Loc :=
  ptrLoc m.BaseElement ++ ptrLoc m.Item

/-- Pointer fields of `CallableElement`. -/
def CallableElement.pointers (c : CallableElement) : List Loc :=
  ptrLoc c.IOSpecification ++ ptrLoc c.IOBinding ++ ptrLoc c.SupportedInterfaces

/-- Pointer fields of `FlowElement`. -/
def FlowElement.pointers (e : FlowElement) : List Loc :=
  ptrLoc e.BaseElement

/-- Pointer fields of `FlowNode`. -/
def FlowNode.pointers (n : FlowNode) : List Loc :=
  ptrLoc n.BaseElement

/-- Pointer fields of `FlowElementsContainer`. -/
def FlowElementsContainer.pointers (c : FlowElementsContainer) : List Loc :=
  ptrLoc c.BaseElement ++ ptrLocs c.FlowElements ++ ptrLocs c.LaneSets

/-- Pointer fields of `SequenceFlow`. -/
def SequenceFlow.pointers (f : SequenceFlow) : List Loc :=
  ptrLoc f.FlowElement ++ ptrLoc f.Source ++ ptrLoc f.Target ++ ptrLoc f.ConditionExpression

/-- Pointer fields of `Activity`. -/
def Activity.pointers (a : Activity) : List Loc :=
  ptrLoc a.FlowNode ++ ptrLocs a.BoundaryEvents ++ ptrLoc a.IOSpecification ++
  ptrLocs a.DataOutputAssociations ++ ptrLocs a.DataInputAssociations ++
  ptrLocs a.Properties ++ ptrLoc a.Default ++ ptrLoc a.LoopCharacteristics ++
  ptrLocs a.Resources

/-- Pointer fields of `Task`. -/
def Task.pointers (t : Task) : List Loc :=
  ptrLoc t.Activity

/-- Pointer fields of `SubProcess`. -/
def SubProcess.pointers (s : SubProcess) : List Loc :=
  ptrLoc s.FlowElementsContainer ++ ptrLoc s.Activity ++ ptrLocs s.Artifacts

/-- Pointer fields of `Event`. -/
def Event.pointers (e : Event) : List Loc :=
  ptrLoc e.FlowNode ++ ptrLocs e.Properties

/-- Pointer fields of `ThrowEvent`. -/
def ThrowEvent.pointers (e : ThrowEvent) : List Loc :=
  ptrLoc e.Event ++ ptrLocs e.DataInputs

/-- Pointer fields of `CatchEvent`. -/
def CatchEvent.pointers (e : CatchEvent) : List Loc :=
  ptrLoc e.Event ++ ptrLocs e.DataOutputs

/-- Pointer fields of `BoundaryEvent`. -/
def BoundaryEvent.pointers (b : BoundaryEvent) : List Loc :=
  ptrLoc b.CatchEvent ++ ptrLoc b.AttachedTo

/-- Pointer fields of `Process`. -/
def Process.pointers (p : Process) : List Loc :=
  ptrLoc p.FlowElementsContainer ++ ptrLoc p.CallableElement ++ ptrLocs p.Artifacts ++
  ptrLocs p.CorrelationSubscriptions ++ ptrLocs p.CorrelationPropertyBinding ++
  ptrLocs p.Properties ++ ptrLocs p.Supports ++ ptrLocs p.DefinitionalCollaboration

/-- Pointer fields of `Gateway`. -/
def Gateway.pointers (g : Gateway) : List Loc :=
  ptrLoc g.FlowNode

/-- Pointer fields of `ResourceRole`. -/
def ResourceRole.pointers (r : ResourceRole) : List Loc :=
  ptrLoc r.ResourceAssignmentExpression ++ ptrLoc r.Resource ++
  ptrLocs r.ResourceParameterBindings

/-- Pointer fields of `Performer`. -/
def Performer.pointers (v : Performer) : List Loc :=
  ptrLoc v.ResourceRole

/-- Pointer fields of `HumanPerformer`. -/
def HumanPerformer.pointers (v : HumanPerformer) : List Loc :=
  ptrLoc v.Performer

/-- Pointer fields of `ExtensionAttributeValue`. -/
def ExtensionAttributeValue.pointers (v : ExtensionAttributeValue) : List Loc :=
  ptrLoc v.Value ++ ptrLoc v.ValueRef ++ ptrLoc v.ExtensionAttributeDefinition

/-- Pointer fields of `ExtensionAttributeDefinition`: it has none. -/
def ExtensionAttributeDefinition.pointers (_d : ExtensionAttributeDefinition) : List Loc :=
  []

/-- The pointers of the object at address `n` of an arena; none when there is
no such object. -/
def Arena.pointersAt {T : TypeName} {α : Type} (a : Arena T α) (f : α → List Loc) (n : Nat) :
    List Loc :=
  match a.objs[n]? with
  | none => []
  | some x => f x

/-- The objects one pointer field away from the object at a location. -/
def Heap.succ (h : Heap) (l : Loc) : List Loc :=
  match l.ty with
  | .BaseElement => h.baseElements.pointersAt BaseElement.pointers l.addr
  | .RootElement => h.rootElements.pointersAt RootElement.pointers l.addr
  | .Definitions => h.definitions.pointersAt Definitions.pointers l.addr
  | .Expression => h.expressions.pointersAt Expression.pointers l.addr
  | .Message => h.messages.pointersAt Message.pointers l.addr
  | .CallableElement => h.callableElements.pointersAt CallableElement.pointers l.addr
  | .FlowElement => h.flowElements.pointersAt FlowElement.pointers l.addr
  | .FlowNode => h.flowNodes.pointersAt FlowNode.pointers l.addr
  | .FlowElementsContainer =>
      h.flowElementsContainers.pointersAt FlowElementsContainer.pointers l.addr
  | .SequenceFlow => h.sequenceFlows.pointersAt SequenceFlow.pointers l.addr
  | .Activity => h.activities.pointersAt Activity.pointers l.addr
  | .Task => h.tasks.pointersAt Task.pointers l.addr
  | .SubProcess => h.subProcesses.pointersAt SubProcess.pointers l.addr
  | .Event => h.events.pointersAt Event.pointers l.addr
  | .ThrowEvent => h.throwEvents.pointersAt ThrowEvent.pointers l.addr
  | .CatchEvent => h.catchEvents.pointersAt CatchEvent.pointers l.addr
  | .BoundaryEvent => h.boundaryEvents.pointersAt BoundaryEvent.pointers l.addr
  | .Process => h.processes.pointersAt Process.pointers l.addr
  | .Gateway => h.gateways.pointersAt Gateway.pointers l.addr
  | .ResourceRole => h.resourceRoles.pointersAt ResourceRole.pointers l.addr
  | .Performer => h.performers.pointersAt Performer.pointers l.addr
  | .HumanPerformer => h.humanPerformers.pointersAt HumanPerformer.pointers l.addr
  | .ExtensionAttributeValue =>
      h.extensionAttributeValues.pointersAt ExtensionAttributeValue.pointers l.addr
  | .ExtensionAttributeDefinition =>
      h.extensionAttributeDefinitions.pointersAt ExtensionAttributeDefinition.pointers l.addr
  | _ => []

/-- An object is reachable from another by following pointer fields, zero or
more times. -/
inductive Heap.Reachable (h : Heap) : Loc → Loc → Prop
  | refl (a : Loc) : Heap.Reachable h a a
  | step {a b c : Loc} : Heap.Reachable h a b → c ∈ h.succ b → Heap.Reachable h a c

/-! ## Scenarios

Concrete documents, written as the store a Go program builds. -/

/-- The container of process `P` before anything is added to it. -/
def scenarioEmptyContainer : FlowElementsContainer := { BaseElement := .ref 1 }

/-- The container of process `P` after adding, in this order, the flow
elements of start event `S`, service task `T`, end event `E` and of the
sequence flows `f1` (S to T) and `f2` (T to E). -/
def scenarioContainer : FlowElementsContainer :=
  [.ref 0, .ref 1, .ref 2, .ref 3, .ref 4].foldl
    FlowElementsContainer.appendFlowElement scenarioEmptyContainer

/-- The document root after adding the root element made for process `P`. -/
def scenarioDefinitions : Definitions :=
  ({ BaseElement := .ref 0, Name := "defs" } : Definitions).appendRootElement (.ref 0)

/-- Activity `T` of the scenario. -/
def scenarioActivity : Activity :=
  { FlowNode := .ref 1, StartQuantity := 1, CompletionQuantity := 1 }

/-- The store of the scenario: one `Definitions`, one process `P` whose
container holds `S`, `T`, `E`, `f1`, `f2`.  `FlowElements` holds `*FlowElement`
values only, so each node is entered as a `FlowElement` sharing the node's
`BaseElement` and name; `RootElements` holds `*RootElement` values only, so the
process is entered as a `RootElement` sharing the process's `BaseElement`. -/
def scenario : Heap :=
  { baseElements := ⟨[{ ID := "defs" }, { ID := "P" }, { ID := "S" }, { ID := "T" },
      { ID := "E" }, { ID := "f1" }, { ID := "f2" }]⟩
    flowNodes := ⟨[{ BaseElement := .ref 2, Name := "S" }, { BaseElement := .ref 3, Name := "T" },
      { BaseElement := .ref 4, Name := "E" }]⟩
    events := ⟨[{ FlowNode := .ref 0 }, { FlowNode := .ref 2 }]⟩
    catchEvents := ⟨[{ Event := .ref 0 }]⟩
    throwEvents := ⟨[{ Event := .ref 1 }]⟩
    activities := ⟨[scenarioActivity]⟩
    tasks := ⟨[{ Activity := .ref 0 }]⟩
    flowElements := ⟨[{ BaseElement := .ref 2, Name := "S" },
      { BaseElement := .ref 3, Name := "T" }, { BaseElement := .ref 4, Name := "E" },
      { BaseElement := .ref 5, Name := "f1" }, { BaseElement := .ref 6, Name := "f2" }]⟩
    sequenceFlows := ⟨[{ FlowElement := .ref 3, Source := .ref 0, Target := .ref 1 },
      { FlowElement := .ref 4, Source := .ref 1, Target := .ref 2 }]⟩
    flowElementsContainers := ⟨[scenarioContainer]⟩
    callableElements := ⟨[{ Name := "P" }]⟩
    processes := ⟨[{ FlowElementsContainer := .ref 0, CallableElement := .ref 0 }]⟩
    rootElements := ⟨[{ BaseElement := .ref 1, Definition := .ref 0 }]⟩
    definitions := ⟨[scenarioDefinitions]⟩ }

/-- The start event `S` of the scenario. -/
def scenarioStartEvent : StartEvent := { CatchEvent := .ref 0 }

/-- The service task `T` of the scenario. -/
def scenarioServiceTask : ServiceTask := { Task := .ref 0 }

/-- The end event `E` of the scenario. -/
def scenarioEndEvent : EndEvent := { ThrowEvent := .ref 0 }

/-- The objects reachable from the `Definitions` of the scenario: the
`Definitions`, its `BaseElement`, its root element and the `BaseElement` of
that root element. -/
def scenarioReachable : List Loc :=
  [⟨.Definitions, 0⟩, ⟨.BaseElement, 0⟩, ⟨.RootElement, 0⟩, ⟨.BaseElement, 1⟩]

/-- A store with the `Definitions`, root element and base elements of the
scenario in which the identifier "P" is that of a `Message` and there is no
process. -/
def scenarioMessage : Heap :=
  { baseElements := scenario.baseElements
    rootElements := scenario.rootElements
    definitions := scenario.definitions
    messages := ⟨[{ BaseElement := .ref 1, Name := "P" }]⟩ }

/-- A process that declares, through `Supports`, that it supports process `P`
of the scenario. -/
def scenarioSupporting : Process := { Supports := [.ref 0] }

/-- A receive task on task `T` of the scenario, with no `Message`. -/
def scenarioReceiveTask : ReceiveTask := { Task := .ref 0 }

/-- The boundary event of `scenarioGhost`: its `AttachedTo` is the activity at
address 1, not `T`. -/
def scenarioBoundaryEvent : BoundaryEvent :=
  { CatchEvent := .ref 1, CancelActivity := true, AttachedTo := .ref 1 }

/-- The scenario extended with an activity that belongs to no container (its
identifier is "ghost") and a boundary event whose `AttachedTo` points to it. -/
def scenarioGhost : Heap :=
  { scenario with
    baseElements := ⟨scenario.baseElements.objs ++ [{ ID := "ghost" }, { ID := "b" }]⟩
    flowNodes := ⟨scenario.flowNodes.objs ++ [{ BaseElement := .ref 7, Name := "ghost" },
      { BaseElement := .ref 8, Name := "b" }]⟩
    activities := ⟨scenario.activities.objs ++ [{ FlowNode := .ref 3 }]⟩
    events := ⟨scenario.events.objs ++ [{ FlowNode := .ref 4 }]⟩
    catchEvents := ⟨scenario.catchEvents.objs ++ [{ Event := .ref 2 }]⟩
    boundaryEvents := ⟨[scenarioBoundaryEvent]⟩ }

/-- Container `A` of `siblings`, holding node `S`. -/
def siblingA : FlowElementsContainer := { BaseElement := .ref 0, FlowElements := [.ref 0] }

/-- Container `B` of `siblings`, holding node `T`. -/
def siblingB : FlowElementsContainer := { BaseElement := .ref 1, FlowElements := [.ref 1] }

/-- The sequence flow `f` of `siblings`: its source `S` is in `A`, its target
`T` in `B`. -/
def siblingFlow : SequenceFlow :=
  { FlowElement := .ref 2, Source := .ref 0, Target := .ref 1 }

/-- Two sibling containers `A` (holding node `S`) and `B` (holding node `T`),
and a sequence flow `f` from `S` to `T`.  As in `scenario`, a node is held by a
container as a `FlowElement` sharing the node's `BaseElement`. -/
def siblings : Heap :=
  { baseElements := ⟨[{ ID := "A" }, { ID := "B" }, { ID := "S" }, { ID := "T" },
      { ID := "f" }]⟩
    flowNodes := ⟨[{ BaseElement := .ref 2, Name := "S" }, { BaseElement := .ref 3, Name := "T" }]⟩
    flowElements := ⟨[{ BaseElement := .ref 2, Name := "S" },
      { BaseElement := .ref 3, Name := "T" }, { BaseElement := .ref 4, Name := "f" }]⟩
    flowElementsContainers := ⟨[siblingA, siblingB]⟩
    sequenceFlows := ⟨[siblingFlow]⟩ }

/-- Flow `f1` of the scenario, from `S` to `T`, with a condition expression. -/
def scenarioDefaultFlow : SequenceFlow :=
  { FlowElement := .ref 3, Source := .ref 0, Target := .ref 1, ConditionExpression := .ref 0 }

/-- Activity `T` of the scenario with `f1` as its `Default`. -/
def scenarioDefaultActivity : Activity :=
  { FlowNode := .ref 1, StartQuantity := 1, CompletionQuantity := 1, Default := .ref 0 }

/-- The scenario with a condition expression on `f1` (from `S` to `T`) and
`f1` made the `Default` of activity `T`. -/
def scenarioDefault : Heap :=
  { scenario with
    expressions := ⟨[{}]⟩
    sequenceFlows := ⟨[scenarioDefaultFlow,
      { FlowElement := .ref 4, Source := .ref 1, Target := .ref 2 }]⟩
    activities := ⟨[scenarioDefaultActivity]⟩ }

/-- A multi-instance characteristic with both `LoopCardinality` and
`LoopDataInput` set. -/
def multiInstanceBoth : MultiInstanceLoopCharacteristics :=
  { LoopCharacteristics := .ref 0, LoopCardinality := .ref 0, LoopDataInput := .ref 0 }

/-- A multi-instance characteristic with neither `LoopCardinality` nor
`LoopDataInput` set. -/
def multiInstanceNeither : MultiInstanceLoopCharacteristics :=
  { LoopCharacteristics := .ref 0 }

/-- A multi-instance characteristic with behavior `One` and
`ComplexBahaviorDefinition` populated. -/
def multiInstanceOneComplex : MultiInstanceLoopCharacteristics :=
  { LoopCharacteristics := .ref 0
    Behavior := MultiInstanceBehaviorOne
    LoopCardinality := .ref 0
    ComplexBahaviorDefinition := .ref 0 }

/-! ## Resource roles, standard loops, identifiers and extension values

Further promoted fields, Go statements on exported fields, and scenarios. -/

/-- Go `&ResourceRole{...}`: the resource role is placed in the store. -/
def Heap.newResourceRole (h : Heap) (r : ResourceRole) : Heap × Ptr .ResourceRole :=
  ({ h with resourceRoles := (h.resourceRoles.alloc r).1 }, (h.resourceRoles.alloc r).2)

/-- Go `&Performer{...}`: the performer is placed in the store. -/
def Heap.newPerformer (h : Heap) (v : Performer) : Heap × Ptr .Performer :=
  ({ h with performers := (h.performers.alloc v).1 }, (h.performers.alloc v).2)

/-- Go `&HumanPerformer{...}`: the human performer is placed in the store. -/
def Heap.newHumanPerformer (h : Heap) (v : HumanPerformer) : Heap × Ptr .HumanPerformer :=
  ({ h with humanPerformers := (h.humanPerformers.alloc v).1 }, (h.humanPerformers.alloc v).2)

/-- Go `&HumanPerformer{Performer: &Performer{ResourceRole: &ResourceRole{...}}}`:
the resource role, the performer and the human performer that embed it are
placed in the store. -/
def Heap.newHumanPerformerOf (h : Heap) (r : ResourceRole) : Heap × Ptr .HumanPerformer :=
  ((h.newResourceRole r).1.newPerformer { ResourceRole := (h.newResourceRole r).2 }).1.newHumanPerformer
    { Performer := ((h.newResourceRole r).1.newPerformer
        { ResourceRole := (h.newResourceRole r).2 }).2 }

/-- Go `v.Resource` for a `Performer`: `v.ResourceRole.Resource`. -/
def Performer.Resource (h : Heap) (v : Performer) : Option (Ptr .Resource) := do
  let r ← h.resourceRoles.deref v.ResourceRole
  pure r.Resource

/-- Go `v.ResourceAssignmentExpression` for a `Performer`:
`v.ResourceRole.ResourceAssignmentExpression`. -/
def Performer.ResourceAssignmentExpression (h : Heap) (v : Performer) :
    Option (Ptr .ResourceAssignmentExpression) := do
  let r ← h.resourceRoles.deref v.ResourceRole
  pure r.ResourceAssignmentExpression

/-- Go `v.Resource` for a `PotentialOwner`:
`v.HumanPerformer.Performer.ResourceRole.Resource`. -/
def PotentialOwner.Resource (h : Heap) (v : PotentialOwner) : Option (Ptr .Resource) := do
  let hp ← h.humanPerformers.deref v.HumanPerformer
  let p ← h.performers.deref hp.Performer
  p.Resource h

/-- Go `v.ResourceAssignmentExpression` for a `PotentialOwner`:
`v.HumanPerformer.Performer.ResourceRole.ResourceAssignmentExpression`. -/
def PotentialOwner.ResourceAssignmentExpression (h : Heap) (v : PotentialOwner) :
    Option (Ptr .ResourceAssignmentExpression) := do
  let hp ← h.humanPerformers.deref v.HumanPerformer
  let p ← h.performers.deref hp.Performer
  p.ResourceAssignmentExpression h

/-- Go `a.LoopCharacteristics = s.LoopCharacteristics`: the only way to attach
a `StandardLoopCharacteristics` to an activity, whose field has type
`*LoopCharacteristics`, is to assign the embedded `*LoopCharacteristics`. -/
def Activity.attachStandardLoop (a : Activity) (s : StandardLoopCharacteristics) : Activity :=
  { a with LoopCharacteristics := s.LoopCharacteristics }

/-- A standard loop characteristic built by a literal that gives no
`LoopCondition`. -/
def standardLoopWithoutCondition : StandardLoopCharacteristics :=
  { LoopCharacteristics := .ref 0, TestBefore := true }

/-- Go `r.ID` for a `*RootElement`: `r.BaseElement.ID`. -/
def Heap.rootElementID (h : Heap) (p : Ptr .RootElement) : Option String := do
  let r ← h.rootElements.deref p
  let b ← h.baseElements.deref r.BaseElement
  pure b.ID

/-- Go `p.ID = id` for a `*BaseElement`: the identifier of the object `p`
refers to is overwritten in the store; `none` when the assignment panics on a
nil pointer (or `p` refers to nothing). -/
def Heap.setBaseElementID (h : Heap) (p : Ptr .BaseElement) (id : String) : Option Heap :=
  match p with
  | .nil => none
  | .ref n =>
    match h.baseElements.objs[n]? with
    | none => none
    | some b => some { h with baseElements := ⟨h.baseElements.objs.set n { b with ID := id }⟩ }

/-- Go `v.ExtensionAttributeDefinition.Name` for a `*ExtensionAttributeValue`:
the name of the definition an extension value is given for. -/
def Heap.extensionValueName (h : Heap) (p : Ptr .ExtensionAttributeValue) : Option String := do
  let v ← h.extensionAttributeValues.deref p
  let d ← h.extensionAttributeDefinitions.deref v.ExtensionAttributeDefinition
  pure d.Name

/-- Go `b.ExtensionValues = append(b.ExtensionValues, v)`. -/
def BaseElement.appendExtensionValue (b : BaseElement) (v : Ptr .ExtensionAttributeValue) :
    BaseElement :=
  { b with ExtensionValues := b.ExtensionValues ++ [v] }

/-- A store with a `Definitions` owning two distinct root elements that both
have the identifier "dup", and a sequence flow `f` from node `A` to a node
whose identifier is the empty string. -/
def duplicates : Heap :=
  { baseElements := ⟨[{ ID := "defs" }, { ID := "dup" }, { ID := "dup" }, { ID := "" },
      { ID := "f" }, { ID := "A" }]⟩
    rootElements := ⟨[{ BaseElement := .ref 1, Definition := .ref 0 },
      { BaseElement := .ref 2, Definition := .ref 0 }]⟩
    definitions := ⟨[{ BaseElement := .ref 0, RootElements := [.ref 0, .ref 1] }]⟩
    flowNodes := ⟨[{ BaseElement := .ref 5, Name := "A" }, { BaseElement := .ref 3, Name := "B" }]⟩
    flowElements := ⟨[{ BaseElement := .ref 4, Name := "f" }]⟩
    sequenceFlows := ⟨[{ FlowElement := .ref 0, Source := .ref 0, Target := .ref 1 }]⟩ }

/-- The sequence flow of `duplicates`. -/
def duplicatesFlow : SequenceFlow :=
  { FlowElement := .ref 0, Source := .ref 0, Target := .ref 1 }

/-- The `Definitions` of `duplicates`. -/
def duplicatesDefinitions : Definitions :=
  { BaseElement := .ref 0, RootElements := [.ref 0, .ref 1] }

/-- A store with three extension values: the first two are given for two
definitions that have the same name "color", the third for "size". -/
def extended : Heap :=
  { extensionAttributeDefinitions := ⟨[{ Name := "color", «Type» := "string" },
      { Name := "color", «Type» := "int" }, { Name := "size", «Type» := "int" }]⟩
    extensionAttributeValues := ⟨[{ ExtensionAttributeDefinition := .ref 0 },
      { ExtensionAttributeDefinition := .ref 1 }, { ExtensionAttributeDefinition := .ref 2 }]⟩ }

/-- An element to which the two "color" values of `extended` were added, one
after the other. -/
def extendedElement : BaseElement :=
  (({ ID := "x" } : BaseElement).appendExtensionValue (.ref 0)).appendExtensionValue (.ref 1)

/-! ## Variants as activities, loop kinds, gateways and root elements -/

/-- Go `*b.AttachedTo`: the activity a boundary event is attached to. -/
def BoundaryEvent.attachedActivity (h : Heap) (b : BoundaryEvent) : Option Activity :=
  h.activities.deref b.AttachedTo

/-- Go `v.Activity` for a struct embedding `*Task`: `v.Task.Activity`. -/
def taskActivity (h : Heap) (p : Ptr .Task) : Option (Ptr .Activity) := do
  let t ← h.tasks.deref p
  pure t.Activity

/-- Go `v.Activity` for a struct embedding `*SubProcess`: `v.SubProcess.Activity`. -/
def subProcessActivity (h : Heap) (p : Ptr .SubProcess) : Option (Ptr .Activity) := do
  let s ← h.subProcesses.deref p
  pure s.Activity

/-- Go `v.Activity` for a `ServiceTask`. -/
def ServiceTask.Activity (h : Heap) (v : ServiceTask) : Option (Ptr .Activity) :=
  taskActivity h v.Task

/-- Go `v.Activity` for a `UserTask`. -/
def UserTask.Activity (h : Heap) (v : UserTask) : Option (Ptr .Activity) :=
  taskActivity h v.Task

/-- Go `v.Activity` for a `ScriptTask`. -/
def ScriptTask.Activity (h : Heap) (v : ScriptTask) : Option (Ptr .Activity) :=
  taskActivity h v.Task

/-- Go `v.Activity` for a `SendTask`. -/
def SendTask.Activity (h : Heap) (v : SendTask) : Option (Ptr .Activity) :=
  taskActivity h v.Task

/-- Go `v.Activity` for a `ReceiveTask`. -/
def ReceiveTask.Activity (h : Heap) (v : ReceiveTask) : Option (Ptr .Activity) :=
  taskActivity h v.Task

/-- Go `v.Activity` for a `BusinessRuleTask`. -/
def BusinessRuleTask.Activity (h : Heap) (v : BusinessRuleTask) : Option (Ptr .Activity) :=
  taskActivity h v.Task

/-- Go `v.Activity` for a `ManualTask`. -/
def ManualTask.Activity (h : Heap) (v : ManualTask) : Option (Ptr .Activity) :=
  taskActivity h v.Task

/-- Go `v.Activity` for an `AdHocSubProcess`. -/
def AdHocSubProcess.Activity (h : Heap) (v : AdHocSubProcess) : Option (Ptr .Activity) :=
  subProcessActivity h v.SubProcess

/-- Go `v.Activity` for a `Transaction`. -/
def Transaction.Activity (h : Heap) (v : Transaction) : Option (Ptr .Activity) :=
  subProcessActivity h v.SubProcess

/-- A standard loop characteristic and a multi-instance characteristic that
embed the same `LoopCharacteristics` object have it at address 0; this is the
standard one, with a loop condition. -/
def standardLoopShared : StandardLoopCharacteristics :=
  { LoopCharacteristics := .ref 0, LoopCondition := .ref 0 }

/-- Go `&Gateway{...}`: the gateway is placed in the store. -/
def Heap.newGateway (h : Heap) (g : Gateway) : Heap × Ptr .Gateway :=
  ({ h with gateways := (h.gateways.alloc g).1 }, (h.gateways.alloc g).2)

/-- Go `v.GatewayDirection` for a struct embedding `*Gateway`:
`v.Gateway.GatewayDirection`. -/
def gatewayDirection (h : Heap) (p : Ptr .Gateway) : Option GatewayDirection := do
  let g ← h.gateways.deref p
  pure g.GatewayDirection

/-- Go `v.ID` for a struct embedding `*Gateway`: `v.Gateway.FlowNode.BaseElement.ID`. -/
def gatewayID (h : Heap) (p : Ptr .Gateway) : Option String := do
  let g ← h.gateways.deref p
  h.flowNodeID g.FlowNode

/-- Go `v.Name` for a struct embedding `*Gateway`: `v.Gateway.FlowNode.Name`. -/
def gatewayName (h : Heap) (p : Ptr .Gateway) : Option String := do
  let g ← h.gateways.deref p
  let n ← h.flowNodes.deref g.FlowNode
  pure n.Name

/-- Pointer fields of `EventBasedGateway`: it has none. -/
def EventBasedGateway.pointers (_e : EventBasedGateway) : List Loc :=
  []

/-- Pointer fields of `Error`. -/
def Error.pointers (e : Error) : List Loc :=
  ptrLoc e.RootElement ++ ptrLoc e.Structure

/-- Pointer fields of `Interface`. -/
def Interface.pointers (i : Interface) : List Loc :=
  ptrLoc i.RootElement ++ ptrLocs i.Operations ++ ptrLoc i.Implementation

/-- Go `&RootElement{...}`: the root element is placed in the store. -/
def Heap.newRootElement (h : Heap) (r : RootElement) : Heap × Ptr .RootElement :=
  ({ h with rootElements := (h.rootElements.alloc r).1 }, (h.rootElements.alloc r).2)

/-- Go `r.Definition` for a `*RootElement`: the link to the owning
`Definitions`. -/
def Heap.rootElementDefinition (h : Heap) (p : Ptr .RootElement) :
    Option (Ptr .Definitions) := do
  let r ← h.rootElements.deref p
  pure r.Definition

/-- An activity for a sub-process, with quantities 2 and 3. -/
def scenarioSubProcessActivity : Activity := { StartQuantity := 2, CompletionQuantity := 3 }

/-- The scenario with, in addition, a sub-process built on
`scenarioSubProcessActivity`. -/
def scenarioWithSubProcess : Heap :=
  (scenario.newSubProcessOf scenarioSubProcessActivity {}).1

/-- Pointer fields of `Resource`. -/
def Resource.pointers (r : Resource) : List Loc :=
  ptrLocs r.ResourceParameters

/-- The objects reachable from process `P` of the scenario: the process, its
container and callable element, the container's base element and five flow
elements, and their base elements. -/
def scenarioProcessReachable : List Loc :=
  [⟨.Process, 0⟩, ⟨.FlowElementsContainer, 0⟩, ⟨.CallableElement, 0⟩, ⟨.BaseElement, 1⟩,
   ⟨.FlowElement, 0⟩, ⟨.FlowElement, 1⟩, ⟨.FlowElement, 2⟩, ⟨.FlowElement, 3⟩,
   ⟨.FlowElement, 4⟩, ⟨.BaseElement, 2⟩, ⟨.BaseElement, 3⟩, ⟨.BaseElement, 4⟩,
   ⟨.BaseElement, 5⟩, ⟨.BaseElement, 6⟩]

/-! ## Event sub-processes, default orderings, sub-process identities and nil paths -/

/-- Go `p.TriggeredByEvent = b` for a `*SubProcess`: the flag of the object `p`
refers to is overwritten in the store; `none` when the assignment panics on a
nil pointer (or `p` refers to nothing). -/
def Heap.setTriggeredByEvent (h : Heap) (p : Ptr .SubProcess) (b : Bool) : Option Heap :=
  match p with
  | .nil => none
  | .ref n =>
    match h.subProcesses.objs[n]? with
    | none => none
    | some s =>
      some { h with subProcesses := ⟨h.subProcesses.objs.set n { s with TriggeredByEvent := b }⟩ }

/-- The container of process `P` of `withEventSubProcess`, holding start event
`S` and sub-process `X`. -/
def eventSubProcessContainer : FlowElementsContainer :=
  { BaseElement := .ref 0, FlowElements := [.ref 0, .ref 1] }

/-- The sub-process `X` of `withEventSubProcess`: an event sub-process. -/
def eventSubProcess : SubProcess :=
  { FlowElementsContainer := .ref 1, Activity := .ref 0, TriggeredByEvent := true }

/-- The sequence flow `f` of `withEventSubProcess`, from `S` to the flow node
of `X`. -/
def eventSubProcessFlow : SequenceFlow :=
  { FlowElement := .ref 2, Source := .ref 0, Target := .ref 1 }

/-- The sequence flow `g` of `withEventSubProcess`, from the flow node of `X`
to `S`. -/
def eventSubProcessFlowBack : SequenceFlow :=
  { FlowElement := .ref 3, Source := .ref 1, Target := .ref 0 }

/-- A process `P` whose container holds a start event `S` and an event
sub-process `X` (`TriggeredByEvent` is true), and two sequence flows not yet
added to the container: `f` from `S` to `X` and `g` from `X` to `S`. -/
def withEventSubProcess : Heap :=
  { baseElements := ⟨[{ ID := "P" }, { ID := "S" }, { ID := "X" }, { ID := "f" },
      { ID := "g" }]⟩
    flowNodes := ⟨[{ BaseElement := .ref 1, Name := "S" }, { BaseElement := .ref 2, Name := "X" }]⟩
    flowElements := ⟨[{ BaseElement := .ref 1, Name := "S" },
      { BaseElement := .ref 2, Name := "X" }, { BaseElement := .ref 3, Name := "f" },
      { BaseElement := .ref 4, Name := "g" }]⟩
    activities := ⟨[{ FlowNode := .ref 1, StartQuantity := 1, CompletionQuantity := 1 }]⟩
    flowElementsContainers := ⟨[eventSubProcessContainer, { BaseElement := .ref 2 }]⟩
    subProcesses := ⟨[eventSubProcess]⟩
    sequenceFlows := ⟨[eventSubProcessFlow, eventSubProcessFlowBack]⟩ }

/-- Go composite literal `AdHocSubProcess{SubProcess: ...,
CancelRemainingInstances: ..., CompletionCondition: ...}` that gives every
field of `v0` except `Ordering`: the omitted field takes the zero value. -/
def AdHocSubProcess.withoutOrdering (v0 : AdHocSubProcess) : AdHocSubProcess :=
  { SubProcess := v0.SubProcess
    CancelRemainingInstances := v0.CancelRemainingInstances
    CompletionCondition := v0.CompletionCondition }

/-- Go composite literal `MultiInstanceLoopCharacteristics{...}` that gives
every field of `m0` except `Behavior`: the omitted field takes the zero
value. -/
def MultiInstanceLoopCharacteristics.withoutBehavior (m0 : MultiInstanceLoopCharacteristics) :
    MultiInstanceLoopCharacteristics :=
  { LoopCharacteristics := m0.LoopCharacteristics
    IsSequential := m0.IsSequential
    LoopCardinality := m0.LoopCardinality
    CompletionCondition := m0.CompletionCondition
    InputDataItem := m0.InputDataItem
    OutputDataItem := m0.OutputDataItem
    LoopDataOutput := m0.LoopDataOutput
    LoopDataInput := m0.LoopDataInput
    OneBehaviourElement := m0.OneBehaviourElement
    ComplexBahaviorDefinition := m0.ComplexBahaviorDefinition
    NoneBehaviorEvent := m0.NoneBehaviorEvent }

/-- Go `s.ID` for a `SubProcess`.  `ID` is promoted along two paths,
`s.FlowElementsContainer.BaseElement.ID` (depth 2) and
`s.Activity.FlowNode.BaseElement.ID` (depth 3); the selector denotes the field
at the shallowest depth, that of the container. -/
def SubProcess.ID (h : Heap) (s : SubProcess) : Option String := do
  let c ← h.flowElementsContainers.deref s.FlowElementsContainer
  let b ← h.baseElements.deref c.BaseElement
  pure b.ID

/-- Go `s.ID = id` for a `SubProcess`: the assignment goes to
`s.FlowElementsContainer.BaseElement.ID`. -/
def SubProcess.setID (h : Heap) (s : SubProcess) (id : String) : Option Heap := do
  let c ← h.flowElementsContainers.deref s.FlowElementsContainer
  h.setBaseElementID c.BaseElement id

/-- Go `a.ID = id` for an `*Activity`: the assignment goes to
`a.FlowNode.BaseElement.ID`. -/
def Heap.setActivityID (h : Heap) (p : Ptr .Activity) (id : String) : Option Heap := do
  let a ← h.activities.deref p
  let n ← h.flowNodes.deref a.FlowNode
  h.setBaseElementID n.BaseElement id

/-- A store with two sub-processes.  The container and the flow node of the
first share one `BaseElement` ("sp"); those of the second have a `BaseElement`
each ("c" for the container, "n" for the flow node). -/
def subProcessIdentities : Heap :=
  { baseElements := ⟨[{ ID := "sp" }, { ID := "c" }, { ID := "n" }]⟩
    flowNodes := ⟨[{ BaseElement := .ref 0, Name := "sp" }, { BaseElement := .ref 2, Name := "n" }]⟩
    activities := ⟨[{ FlowNode := .ref 0 }, { FlowNode := .ref 1 }]⟩
    flowElementsContainers := ⟨[{ BaseElement := .ref 0 }, { BaseElement := .ref 1 }]⟩ }

/-- The first sub-process of `subProcessIdentities`: Go
`b := &BaseElement{ID: "sp"}` used for both
`FlowElementsContainer: &FlowElementsContainer{BaseElement: b}` and
`Activity: &Activity{FlowNode: &FlowNode{BaseElement: b, Name: "sp"}}`. -/
def sharedSubProcess : SubProcess :=
  { FlowElementsContainer := .ref 0, Activity := .ref 0 }

/-- The second sub-process of `subProcessIdentities`, built on two
`BaseElement` objects. -/
def splitSubProcess : SubProcess :=
  { FlowElementsContainer := .ref 1, Activity := .ref 1 }

/-- The pointers followed when reading `v.ID` for a `ServiceTask` refer to
objects of the store wherever they are not nil, as Go pointers do. -/
def ServiceTask.pointersLive (h : Heap) (v : ServiceTask) : Bool :=
  h.tasks.live v.Task &&
  match h.tasks.deref v.Task with
  | none => true
  | some t =>
    h.activities.live t.Activity &&
    match h.activities.deref t.Activity with
    | none => true
    | some a =>
      h.flowNodes.live a.FlowNode &&
      match h.flowNodes.deref a.FlowNode with
      | none => true
      | some n => h.baseElements.live n.BaseElement

/-! ## Conversion between flow nodes and flow elements, and yielded activities

`FlowNode` and `FlowElement` are declared with the same fields,
`struct { *BaseElement; Name string }`: their underlying types are identical,
so Go converts a value of the one to the other and a pointer to the one to a
pointer to the other, the converted pointer referring to the same object. -/

/-- Go `b.AttachedTo = q` followed by `*b.AttachedTo`, where `q` is the
`*Activity` a variant yields: the activity the boundary event is then attached
to; `none` when yielding `q` panics or `q` is nil. -/
def BoundaryEvent.attachedVia (h : Heap) (b : BoundaryEvent) (q : Option (Ptr .Activity)) :
    Option Activity :=
  q.bind (fun p => ({ b with AttachedTo := p }).attachedActivity h)

/-- The pointers followed when reading `v.Activity` for a struct embedding the
`*Task` `p` refer to objects of the store wherever they are not nil, as Go
pointers do. -/
def taskPointersLive (h : Heap) (p : Ptr .Task) : Bool :=
  h.tasks.live p &&
  match h.tasks.deref p with
  | none => true
  | some t => h.activities.live t.Activity

/-- The pointers followed when reading `v.Activity` for a struct embedding the
`*SubProcess` `p` refer to objects of the store wherever they are not nil. -/
def subProcessPointersLive (h : Heap) (p : Ptr .SubProcess) : Bool :=
  h.subProcesses.live p &&
  match h.subProcesses.deref p with
  | none => true
  | some s => h.activities.live s.Activity

/-! # Theorems -/

/-! ## Helper lemmas -/

/-- Reading the object just placed in an arena gives it back. -/
theorem deref_alloc {T : TypeName} {α : Type} (a : Arena T α) (x : α) :
    (a.alloc x).1.deref (a.alloc x).2 = some x := by
  simp [Arena.deref, Arena.alloc]

/-- Successive appends to `FlowElements` add the elements in order. -/
theorem foldl_appendFlowElement (es : List (Ptr .FlowElement)) (c : FlowElementsContainer) :
    (es.foldl FlowElementsContainer.appendFlowElement c).FlowElements = c.FlowElements ++ es := by
  induction es generalizing c with
  | nil => simp
  | cons e es ih => simp [List.foldl, ih, FlowElementsContainer.appendFlowElement]

/-- Successive appends to `RootElements` add the elements in order. -/
theorem foldl_appendRootElement (rs : List (Ptr .RootElement)) (d : Definitions) :
    (rs.foldl Definitions.appendRootElement d).RootElements = d.RootElements ++ rs := by
  induction rs generalizing d with
  | nil => simp
  | cons r rs ih => simp [List.foldl, ih, Definitions.appendRootElement]

/-- A set of locations that contains `a` and is closed under following pointer
fields contains everything reachable from `a`. -/
theorem reachable_mem_of_closed (h : Heap) (S : List Loc) (a b : Loc) (ha : a ∈ S)
    (hclosed : ∀ l ∈ S, ∀ s ∈ h.succ l, s ∈ S) (hr : h.Reachable a b) : b ∈ S := by
  induction hr with
  | refl => exact ha
  | step _ hc ih => exact hclosed _ ih _ hc

/-- In the scenario, `scenarioReachable` is closed under following pointer
fields. -/
theorem scenarioReachable_closed :
    ∀ l ∈ scenarioReachable, ∀ s ∈ scenario.succ l, s ∈ scenarioReachable := by
  decide

/-- In `scenarioGhost` too, `scenarioReachable` is closed under following
pointer fields. -/
theorem scenarioGhost_closed :
    ∀ l ∈ scenarioReachable, ∀ s ∈ scenarioGhost.succ l, s ∈ scenarioReachable := by
  decide

/-- In `scenarioMessage` too, `scenarioReachable` is closed under following
pointer fields. -/
theorem scenarioMessage_closed :
    ∀ l ∈ scenarioReachable, ∀ s ∈ scenarioMessage.succ l, s ∈ scenarioReachable := by
  decide

/-- Dereferencing a live pointer fails exactly when the pointer is nil. -/
theorem deref_eq_none_iff {T : TypeName} {α : Type} (a : Arena T α) (p : Ptr T)
    (hp : a.live p = true) : a.deref p = none ↔ p = .nil := by
  cases p with
  | nil => simp [Arena.deref]
  | ref n =>
    simp only [Arena.live, decide_eq_true_eq] at hp
    simp [Arena.deref, hp]

/-- The location a pointer leads to has the pointer's declared type. -/
theorem ptrLoc_ty {T : TypeName} (p : Ptr T) : ∀ l ∈ ptrLoc p, l.ty = T := by
  cases p with
  | nil => simp [ptrLoc]
  | ref n => simp [ptrLoc]

/-- The locations the pointers of a slice lead to have the declared type. -/
theorem ptrLocs_ty {T : TypeName} (ps : List (Ptr T)) : ∀ l ∈ ptrLocs ps, l.ty = T := by
  intro l hl
  simp only [ptrLocs, List.mem_flatten, List.mem_map] at hl
  obtain ⟨_, ⟨p, _, rfl⟩, hl⟩ := hl
  exact ptrLoc_ty p l hl

/-- Whatever the store, the pointer fields of a `Definitions` lead to objects
of six types only, none of which is `Process`. -/
theorem definitions_pointers_ty (d : Definitions) : ∀ l ∈ d.pointers,
    l.ty ∈ [TypeName.BaseElement, .RootElement, .Relationship, .Extension, .Import,
      .BPMNDiagram] := by
  intro l hl
  simp only [Definitions.pointers, List.mem_append] at hl
  rcases hl with ((((hl | hl) | hl) | hl) | hl) | hl
  · simp [ptrLoc_ty _ l hl]
  · simp [ptrLocs_ty _ l hl]
  · simp [ptrLocs_ty _ l hl]
  · simp [ptrLocs_ty _ l hl]
  · simp [ptrLocs_ty _ l hl]
  · simp [ptrLocs_ty _ l hl]

/-- Whatever the store, the pointer fields of a `RootElement` lead to a
`BaseElement` or to a `Definitions`. -/
theorem rootElement_pointers_ty (r : RootElement) : ∀ l ∈ r.pointers,
    l.ty ∈ [TypeName.BaseElement, .Definitions] := by
  intro l hl
  simp only [RootElement.pointers, List.mem_append] at hl
  rcases hl with hl | hl
  · simp [ptrLoc_ty _ l hl]
  · simp [ptrLoc_ty _ l hl]

/-- A task read through the pointer `newTaskOf` returns has the completion
quantity of the activity it was made of. -/
theorem taskCompletionQuantity_newTaskOf (h : Heap) (a : Activity) :
    taskCompletionQuantity (h.newTaskOf a).1 (h.newTaskOf a).2 = some a.CompletionQuantity := by
  simp [taskCompletionQuantity, Task.CompletionQuantity, Heap.newTaskOf, Heap.newTask,
    Heap.newActivity, Arena.deref, Arena.alloc]

/-- A sub-process read through the pointer `newSubProcessOf` returns has the
completion quantity of the activity it was made of. -/
theorem subProcessCompletionQuantity_newSubProcessOf (h : Heap) (a : Activity)
    (s : SubProcess) :
    subProcessCompletionQuantity (h.newSubProcessOf a s).1 (h.newSubProcessOf a s).2
      = some a.CompletionQuantity := by
  simp [subProcessCompletionQuantity, SubProcess.CompletionQuantity, Heap.newSubProcessOf,
    Heap.newSubProcess, Heap.newActivity, Arena.deref, Arena.alloc]

/-! ## C1: activity quantities -/

/-- C1 (counterexample): the zero-value `Activity` is a value of the model
whose `CompletionQuantity` is 0, and an activity with a negative
`CompletionQuantity` is a value too; so it is not the case that every activity
has both quantities at least 1. -/
theorem C1_zero_value_activity_has_quantity_zero :
    ({} : Activity).CompletionQuantity = 0 ∧
    ({ CompletionQuantity := -7 } : Activity).CompletionQuantity = -7 ∧
    ¬ (∀ a : Activity, 1 ≤ a.StartQuantity ∧ 1 ≤ a.CompletionQuantity) := by
  refine ⟨rfl, rfl, ?_⟩
  intro h
  exact absurd (h {}).2 (by decide)

/-- C1 (amended): `CompletionQuantity` is stored as given, whatever the value:
an activity given the completion quantity `c` has `CompletionQuantity = c`,
so the bound `1 ≤ CompletionQuantity` holds of it exactly when `1 ≤ c`, and the
variants built on it in any store (a `Task`, any `ServiceTask`, a `SubProcess`,
any `CallActivity`) read `c` as their `CompletionQuantity`. -/
theorem C1_completion_quantity_is_stored_as_given (h : Heap) (a : Activity) (c : Int)
    (s : SubProcess) :
    ({ a with CompletionQuantity := c }).CompletionQuantity = c ∧
    (1 ≤ ({ a with CompletionQuantity := c }).CompletionQuantity ↔ 1 ≤ c) ∧
    Task.CompletionQuantity (h.newActivity { a with CompletionQuantity := c }).1
      { Activity := (h.newActivity { a with CompletionQuantity := c }).2 } = some c ∧
    (∀ v : ServiceTask,
      ServiceTask.CompletionQuantity (h.newTaskOf { a with CompletionQuantity := c }).1
        { v with Task := (h.newTaskOf { a with CompletionQuantity := c }).2 } = some c) ∧
    SubProcess.CompletionQuantity (h.newActivity { a with CompletionQuantity := c }).1
      { s with Activity := (h.newActivity { a with CompletionQuantity := c }).2 } = some c ∧
    (∀ v : CallActivity,
      CallActivity.CompletionQuantity (h.newActivity { a with CompletionQuantity := c }).1
        { v with Activity := (h.newActivity { a with CompletionQuantity := c }).2 } = some c) := by
  have ha : (h.newActivity { a with CompletionQuantity := c }).1.activities.deref
      (h.newActivity { a with CompletionQuantity := c }).2
        = some { a with CompletionQuantity := c } :=
    deref_alloc h.activities _
  refine ⟨rfl, Iff.rfl, ?_, fun _ => taskCompletionQuantity_newTaskOf h _, ?_, ?_⟩
  · simp only [Task.CompletionQuantity, ha]
    rfl
  · simp only [SubProcess.CompletionQuantity, ha]
    rfl
  · intro v
    simp only [CallActivity.CompletionQuantity, ha]
    rfl

/-! ## C2: multi-instance loop inputs -/

/-- C2 (counterexample): the zero-value `MultiInstanceLoopCharacteristics` has
neither `LoopCardinality` nor `LoopDataInput` set. -/
theorem C2_zero_value_has_neither :
    ¬ (({} : MultiInstanceLoopCharacteristics).LoopCardinality ≠ .nil ∨
       ({} : MultiInstanceLoopCharacteristics).LoopDataInput ≠ .nil) := by
  decide

/-- C2 (amended): `LoopCardinality` and `LoopDataInput` are stored as given,
nil included: a characteristic given the two pointers `lc` and `ldi` holds
them, and `LoopCardinality != nil OR LoopDataInput != nil` is true of it
exactly when one of the two pointers given is not nil. -/
theorem C2_loop_inputs_are_stored_as_given (m : MultiInstanceLoopCharacteristics)
    (lc : Ptr .Expression) (ldi : Ptr .ItemAwareElement) :
    ({ m with LoopCardinality := lc, LoopDataInput := ldi }).LoopCardinality = lc ∧
    ({ m with LoopCardinality := lc, LoopDataInput := ldi }).LoopDataInput = ldi ∧
    ((({ m with LoopCardinality := lc, LoopDataInput := ldi }).LoopCardinality ≠ .nil ∨
      ({ m with LoopCardinality := lc, LoopDataInput := ldi }).LoopDataInput ≠ .nil) ↔
     (lc ≠ .nil ∨ ldi ≠ .nil)) :=
  ⟨rfl, rfl, Iff.rfl⟩

/-! ## C3: sequence flows and containers -/

/-- C3 (counterexample): in `siblings`, the target `T` of flow `f` belongs to
container `B` and not to container `A`; adding `f` to `A` is not rejected:
`A.FlowElements` changes from `[S]` to `[S, f]`. -/
theorem C3_flow_to_sibling_container_is_added :
    siblings.flowElementsContainers.deref (.ref 0) = some siblingA ∧
    siblings.flowElementsContainers.deref (.ref 1) = some siblingB ∧
    siblings.sequenceFlows.deref (.ref 0) = some siblingFlow ∧
    siblings.flowNodeID siblingFlow.Target = some "T" ∧
    siblingB.ids siblings = [some "T"] ∧
    siblingA.ids siblings = [some "S"] ∧
    (siblingA.appendFlowElement siblingFlow.FlowElement).FlowElements = [.ref 0, .ref 2] ∧
    (siblingA.appendFlowElement siblingFlow.FlowElement).ids siblings
      = [some "S", some "f"] ∧
    (siblingA.appendFlowElement siblingFlow.FlowElement).FlowElements
      ≠ siblingA.FlowElements := by
  decide

/-- C3 (amended): adding a sequence flow to a container appends the flow's
`FlowElement` to `FlowElements`, for every container and every flow, whatever
its `Source` and `Target`: the earlier elements are kept in order and the
slice grows by one. -/
theorem C3_adding_a_flow_appends_it (c : FlowElementsContainer) (f : SequenceFlow) :
    (c.appendFlowElement f.FlowElement).FlowElements = c.FlowElements ++ [f.FlowElement] ∧
    (c.appendFlowElement f.FlowElement).FlowElements.length = c.FlowElements.length + 1 ∧
    (c.appendFlowElement f.FlowElement).FlowElements.take c.FlowElements.length
      = c.FlowElements := by
  simp [FlowElementsContainer.appendFlowElement]

/-! ## C4: building and traversing a document -/

/-- C4 (counterexample): in the scenario one process was built, its container
holding `S`, `T`, `E`, `f1`, `f2`, and a root element was added for it to the
`Definitions`; yet no `Process`, no `FlowElementsContainer`, no `FlowElement`
and no `FlowNode` is reachable from the `Definitions` by following pointer
fields: traversing the `Definitions` yields no process and no flow node.  No
other way of building does better: in every store the pointer fields of a
`Definitions` and of a `RootElement` lead to no `Process`. -/
theorem C4_definitions_reaches_no_process :
    scenario.definitions.deref (.ref 0) = some scenarioDefinitions ∧
    scenarioDefinitions.RootElements = [.ref 0] ∧
    scenario.processes.objs.length = 1 ∧
    (∀ i, ¬ scenario.Reachable ⟨.Definitions, 0⟩ ⟨.Process, i⟩) ∧
    (∀ i, ¬ scenario.Reachable ⟨.Definitions, 0⟩ ⟨.FlowElementsContainer, i⟩) ∧
    (∀ i, ¬ scenario.Reachable ⟨.Definitions, 0⟩ ⟨.FlowElement, i⟩) ∧
    (∀ i, ¬ scenario.Reachable ⟨.Definitions, 0⟩ ⟨.FlowNode, i⟩) ∧
    (∀ d : Definitions, ∀ l ∈ d.pointers,
      l.ty ∈ [TypeName.BaseElement, .RootElement, .Relationship, .Extension, .Import,
        .BPMNDiagram]) ∧
    (∀ r : RootElement, ∀ l ∈ r.pointers, l.ty ∈ [TypeName.BaseElement, .Definitions]) := by
  have key : ∀ l, scenario.Reachable ⟨.Definitions, 0⟩ l → l ∈ scenarioReachable :=
    fun l hr => reachable_mem_of_closed scenario scenarioReachable _ l (by decide)
      scenarioReachable_closed hr
  refine ⟨by decide, by decide, by decide, ?_, ?_, ?_, ?_, definitions_pointers_ty,
    rootElement_pointers_ty⟩ <;>
  · intro i hr
    have h := key _ hr
    simp [scenarioReachable] at h

/-- C4 (amended): successive additions keep insertion order and exact counts:
after adding the elements `es` one by one to a container, its `FlowElements`
is the earlier content followed by `es`, and likewise for the root elements
`rs` added to a `Definitions`; starting from empty slices there are exactly
`es.length` flow elements and `rs.length` root elements.  In the scenario,
where `T` is a service task with both quantities 1, the container is traversed
in the order `S`, `T`, `E`, `f1`, `f2` (these being the identifiers of the
start event, the service task and the end event), the elements that are not
those of the two sequence flows being `S`, `T`, `E` in this order. -/
theorem C4_additions_keep_insertion_order (c : FlowElementsContainer)
    (es : List (Ptr .FlowElement)) (d : Definitions) (rs : List (Ptr .RootElement)) :
    (es.foldl FlowElementsContainer.appendFlowElement c).FlowElements = c.FlowElements ++ es ∧
    (rs.foldl Definitions.appendRootElement d).RootElements = d.RootElements ++ rs ∧
    (es.foldl FlowElementsContainer.appendFlowElement
      { c with FlowElements := [] }).FlowElements = es ∧
    (rs.foldl Definitions.appendRootElement { d with RootElements := [] }).RootElements = rs ∧
    scenarioServiceTask.StartQuantity scenario = some 1 ∧
    scenarioServiceTask.CompletionQuantity scenario = some 1 ∧
    [scenarioStartEvent.ID scenario, scenarioServiceTask.ID scenario,
      scenarioEndEvent.ID scenario] = [some "S", some "T", some "E"] ∧
    scenarioContainer.ids scenario
      = [some "S", some "T", some "E", some "f1", some "f2"] ∧
    (scenarioContainer.FlowElements.filter
        (fun e => e ∉ scenario.sequenceFlows.objs.map (·.FlowElement))).map
          scenario.flowElementID
      = [some "S", some "T", some "E"] ∧
    scenario.sequenceFlows.objs.length = 2 := by
  refine ⟨foldl_appendFlowElement es c, foldl_appendRootElement rs d, ?_, ?_,
    by decide, by decide, by decide, by decide, by decide, by decide⟩
  · simp [foldl_appendFlowElement]
  · simp [foldl_appendRootElement]

/-! ## C5: looking up by identifier -/

/-- C5 (counterexample): the stores `scenario` and `scenarioMessage` have the
same `Definitions`, root elements and base elements, which is all their
`Definitions` reaches; the identifier "P" is that of a `Process` in the first
and of a `Message` in the second.  So whatever is computed from what the
`Definitions` reaches answers the same for "P" in both stores: it cannot
report a found `Process` in one and "found but wrong kind" in the other.  And
the identifier "T", carried by an element of process `P`, is carried by
nothing the `Definitions` reaches (these identifiers are "defs" and "P"). -/
theorem C5_kind_and_members_are_not_found_from_definitions :
    scenario.definitions = scenarioMessage.definitions ∧
    scenario.rootElements = scenarioMessage.rootElements ∧
    scenario.baseElements = scenarioMessage.baseElements ∧
    (∀ l, scenario.Reachable ⟨.Definitions, 0⟩ l → l ∈ scenarioReachable) ∧
    (∀ l, scenarioMessage.Reachable ⟨.Definitions, 0⟩ l → l ∈ scenarioReachable) ∧
    scenario.processID (.ref 0) = some "P" ∧ scenario.messages.objs = [] ∧
    scenarioMessage.messageID (.ref 0) = some "P" ∧ scenarioMessage.processes.objs = [] ∧
    (∀ (R : Type) (look : Arena .Definitions Definitions → Arena .RootElement RootElement →
        Arena .BaseElement BaseElement → Ptr .Definitions → String → R),
      look scenario.definitions scenario.rootElements scenario.baseElements (.ref 0) "P"
        = look scenarioMessage.definitions scenarioMessage.rootElements
            scenarioMessage.baseElements (.ref 0) "P") ∧
    scenarioContainer.ids scenario
      = [some "S", some "T", some "E", some "f1", some "f2"] ∧
    (scenarioReachable.filter (fun l => l.ty = .BaseElement)).map
        (fun l => (scenario.baseElements.deref (.ref l.addr)).map (fun b => b.ID))
      = [some "defs", some "P"] := by
  refine ⟨rfl, rfl, rfl, ?_, ?_, by decide, by decide, by decide, by decide, ?_,
    by decide, by decide⟩
  · exact fun l hr => reachable_mem_of_closed scenario scenarioReachable _ l (by decide)
      scenarioReachable_closed hr
  · exact fun l hr => reachable_mem_of_closed scenarioMessage scenarioReachable _ l (by decide)
      scenarioMessage_closed hr
  · intro R look
    rfl

/-- C5 (amended): elements refer to one another by typed pointers, such as
`Process.Supports`, `ReceiveTask.Message` and `BoundaryEvent.AttachedTo`.  For
every store in which these references are live, resolving one fails exactly
when the pointer is nil, and the object it leads to has the type the field is
declared with (a `Process`, a `Message`, an `Activity`). -/
theorem C5_references_are_resolved_by_type (h : Heap) (x : Process) (r : ReceiveTask)
    (b : BoundaryEvent) (hx : ∀ p ∈ x.Supports, h.processes.live p = true)
    (hr : h.messages.live r.Message = true) (hb : h.activities.live b.AttachedTo = true) :
    (∀ p ∈ x.Supports, (h.processes.deref p = none ↔ p = .nil)) ∧
    (h.messages.deref r.Message = none ↔ r.Message = .nil) ∧
    (h.activities.deref b.AttachedTo = none ↔ b.AttachedTo = .nil) ∧
    (∀ l ∈ ptrLocs x.Supports, l.ty = .Process) ∧
    (∀ l ∈ ptrLoc r.Message, l.ty = .Message) ∧
    (∀ l ∈ ptrLoc b.AttachedTo, l.ty = .Activity) :=
  ⟨fun p hp => deref_eq_none_iff _ p (hx p hp), deref_eq_none_iff _ _ hr,
    deref_eq_none_iff _ _ hb, ptrLocs_ty _, ptrLoc_ty _, ptrLoc_ty _⟩

/-- C5 (witness): in `scenarioGhost`, a process supporting process `P`, a
receive task without message and the boundary event attached to the activity
at address 1. -/
theorem C5_references_are_resolved_by_type_witness :
    ((∀ p ∈ scenarioSupporting.Supports, scenarioGhost.processes.live p = true) ∧
      scenarioGhost.messages.live scenarioReceiveTask.Message = true ∧
      scenarioGhost.activities.live scenarioBoundaryEvent.AttachedTo = true) ∧
    ((∀ p ∈ scenarioSupporting.Supports, (scenarioGhost.processes.deref p = none ↔ p = .nil)) ∧
     (scenarioGhost.messages.deref scenarioReceiveTask.Message = none
        ↔ scenarioReceiveTask.Message = .nil) ∧
     (scenarioGhost.activities.deref scenarioBoundaryEvent.AttachedTo = none
        ↔ scenarioBoundaryEvent.AttachedTo = .nil) ∧
     (∀ l ∈ ptrLocs scenarioSupporting.Supports, l.ty = .Process) ∧
     (∀ l ∈ ptrLoc scenarioReceiveTask.Message, l.ty = .Message) ∧
     (∀ l ∈ ptrLoc scenarioBoundaryEvent.AttachedTo, l.ty = .Activity)) :=
  ⟨⟨by decide, by decide, by decide⟩,
    C5_references_are_resolved_by_type scenarioGhost scenarioSupporting scenarioReceiveTask
      scenarioBoundaryEvent (by decide) (by decide) (by decide)⟩

/-! ## C6: boundary events -/

/-- C6 (counterexample): in `scenarioGhost` the boundary event's `AttachedTo`
points to an activity whose identifier "ghost" is carried by no element of the
container and by nothing reachable from the `Definitions`; attaching the event
to `T` is not rejected: `T.BoundaryEvents` becomes the one-element slice
holding it. -/
theorem C6_boundary_event_with_unknown_target_is_attached :
    scenarioGhost.activities.deref (.ref 0) = some scenarioActivity ∧
    scenarioGhost.boundaryEvents.deref (.ref 0) = some scenarioBoundaryEvent ∧
    scenarioGhost.activityID scenarioBoundaryEvent.AttachedTo = some "ghost" ∧
    some "ghost" ∉ scenarioContainer.ids scenarioGhost ∧
    (scenarioReachable.filter (fun l => l.ty = .BaseElement)).map
        (fun l => (scenarioGhost.baseElements.deref (.ref l.addr)).map
          (fun b => b.ID))
      = [some "defs", some "P"] ∧
    (∀ l, scenarioGhost.Reachable ⟨.Definitions, 0⟩ l → l ∈ scenarioReachable) ∧
    scenarioActivity.BoundaryEvents = [] ∧
    (scenarioActivity.appendBoundaryEvent (.ref 0)).BoundaryEvents = [.ref 0] := by
  refine ⟨by decide, by decide, by decide, by decide, by decide, ?_, by decide, by decide⟩
  exact fun l hr => reachable_mem_of_closed scenarioGhost scenarioReachable _ l (by decide)
    scenarioGhost_closed hr

/-- C6 (amended): attaching a boundary event to an activity appends it to
`BoundaryEvents`, for every activity and every boundary event pointer,
whatever the event's `AttachedTo` refers to; each of the eleven other fields
of the activity is unchanged. -/
theorem C6_attaching_a_boundary_event_appends_it (a : Activity) (b : Ptr .BoundaryEvent) :
    (a.appendBoundaryEvent b).BoundaryEvents = a.BoundaryEvents ++ [b] ∧
    (a.appendBoundaryEvent b).BoundaryEvents.length = a.BoundaryEvents.length + 1 ∧
    (a.appendBoundaryEvent b).FlowNode = a.FlowNode ∧
    (a.appendBoundaryEvent b).StartQuantity = a.StartQuantity ∧
    (a.appendBoundaryEvent b).CompletionQuantity = a.CompletionQuantity ∧
    (a.appendBoundaryEvent b).IsForCompensation = a.IsForCompensation ∧
    (a.appendBoundaryEvent b).IOSpecification = a.IOSpecification ∧
    (a.appendBoundaryEvent b).DataOutputAssociations = a.DataOutputAssociations ∧
    (a.appendBoundaryEvent b).DataInputAssociations = a.DataInputAssociations ∧
    (a.appendBoundaryEvent b).Properties = a.Properties ∧
    (a.appendBoundaryEvent b).Default = a.Default ∧
    (a.appendBoundaryEvent b).LoopCharacteristics = a.LoopCharacteristics ∧
    (a.appendBoundaryEvent b).Resources = a.Resources := by
  simp [Activity.appendBoundaryEvent]

/-! ## C7: defaults of the quantities -/

/-- C7 (counterexample): the service task built by the Go literal
`ServiceTask{Task: &Task{Activity: &Activity{}}}`, which gives no quantities,
has `CompletionQuantity` 0, not 1. -/
theorem C7_service_task_without_quantities_has_completion_quantity_zero :
    ServiceTask.CompletionQuantity (Heap.newTaskOf {} {}).1 { Task := (Heap.newTaskOf {} {}).2 }
      = some 0 ∧
    ServiceTask.CompletionQuantity (Heap.newTaskOf {} {}).1 { Task := (Heap.newTaskOf {} {}).2 }
      ≠ some 1 := by
  decide

/-- C7 (amended): for every concrete activity variant, built in any store from
an activity literal that gives no quantities (whatever its other fields and
the variant's own fields), reading `CompletionQuantity` succeeds and yields 0:
no default is applied to it. -/
theorem C7_variants_without_quantities_have_completion_quantity_zero (h : Heap)
    (a0 : Activity) (s : SubProcess) :
    Task.CompletionQuantity (h.newActivity a0.withoutQuantities).1
      { Activity := (h.newActivity a0.withoutQuantities).2 } = some 0 ∧
    (∀ v : ServiceTask, ServiceTask.CompletionQuantity (h.newTaskOf a0.withoutQuantities).1
      { v with Task := (h.newTaskOf a0.withoutQuantities).2 } = some 0) ∧
    (∀ v : UserTask, UserTask.CompletionQuantity (h.newTaskOf a0.withoutQuantities).1
      { v with Task := (h.newTaskOf a0.withoutQuantities).2 } = some 0) ∧
    (∀ v : ScriptTask, ScriptTask.CompletionQuantity (h.newTaskOf a0.withoutQuantities).1
      { v with Task := (h.newTaskOf a0.withoutQuantities).2 } = some 0) ∧
    (∀ v : SendTask, SendTask.CompletionQuantity (h.newTaskOf a0.withoutQuantities).1
      { v with Task := (h.newTaskOf a0.withoutQuantities).2 } = some 0) ∧
    (∀ v : ReceiveTask, ReceiveTask.CompletionQuantity (h.newTaskOf a0.withoutQuantities).1
      { v with Task := (h.newTaskOf a0.withoutQuantities).2 } = some 0) ∧
    (∀ v : BusinessRuleTask,
      BusinessRuleTask.CompletionQuantity (h.newTaskOf a0.withoutQuantities).1
        { v with Task := (h.newTaskOf a0.withoutQuantities).2 } = some 0) ∧
    (∀ v : ManualTask, ManualTask.CompletionQuantity (h.newTaskOf a0.withoutQuantities).1
      { v with Task := (h.newTaskOf a0.withoutQuantities).2 } = some 0) ∧
    SubProcess.CompletionQuantity (h.newActivity a0.withoutQuantities).1
      { s with Activity := (h.newActivity a0.withoutQuantities).2 } = some 0 ∧
    (∀ v : AdHocSubProcess,
      AdHocSubProcess.CompletionQuantity (h.newSubProcessOf a0.withoutQuantities s).1
        { v with SubProcess := (h.newSubProcessOf a0.withoutQuantities s).2 } = some 0) ∧
    (∀ v : Transaction,
      Transaction.CompletionQuantity (h.newSubProcessOf a0.withoutQuantities s).1
        { v with SubProcess := (h.newSubProcessOf a0.withoutQuantities s).2 } = some 0) ∧
    (∀ v : CallActivity, CallActivity.CompletionQuantity (h.newActivity a0.withoutQuantities).1
      { v with Activity := (h.newActivity a0.withoutQuantities).2 } = some 0) := by
  have ht := taskCompletionQuantity_newTaskOf h a0.withoutQuantities
  have hs := subProcessCompletionQuantity_newSubProcessOf h a0.withoutQuantities s
  have ha : (h.newActivity a0.withoutQuantities).1.activities.deref
      (h.newActivity a0.withoutQuantities).2 = some a0.withoutQuantities :=
    deref_alloc h.activities a0.withoutQuantities
  refine ⟨?_, fun _ => ht, fun _ => ht, fun _ => ht, fun _ => ht, fun _ => ht, fun _ => ht,
    fun _ => ht, ?_, fun _ => hs, fun _ => hs, ?_⟩
  · simp only [Task.CompletionQuantity, ha]
    rfl
  · simp only [SubProcess.CompletionQuantity, ha]
    rfl
  · intro v
    simp only [CallActivity.CompletionQuantity, ha]
    rfl

/-! ## C8: attaching a multi-instance characteristic -/

/-- C8 (counterexample): a characteristic with both `LoopCardinality` and
`LoopDataInput` set, and one with neither set, are both attached to an
activity: after the assignment the activity's `LoopCharacteristics` is the
characteristic's, not nil. -/
theorem C8_both_and_neither_are_attached :
    multiInstanceBoth.LoopCardinality ≠ .nil ∧ multiInstanceBoth.LoopDataInput ≠ .nil ∧
    (scenarioActivity.attachMultiInstance multiInstanceBoth).LoopCharacteristics
      = multiInstanceBoth.LoopCharacteristics ∧
    (scenarioActivity.attachMultiInstance multiInstanceBoth).LoopCharacteristics ≠ .nil ∧
    multiInstanceNeither.LoopCardinality = .nil ∧ multiInstanceNeither.LoopDataInput = .nil ∧
    (scenarioActivity.attachMultiInstance multiInstanceNeither).LoopCharacteristics
      = multiInstanceNeither.LoopCharacteristics ∧
    (scenarioActivity.attachMultiInstance multiInstanceNeither).LoopCharacteristics ≠ .nil := by
  decide

/-- C8 (amended): attaching a multi-instance characteristic to an activity
does not depend on `LoopCardinality` and `LoopDataInput`: whatever the two
pointers are (both set, one set, none set), the activity obtained is the same,
its `LoopCharacteristics` being the characteristic's embedded
`LoopCharacteristics`. -/
theorem C8_attaching_ignores_loop_inputs (a : Activity) (m : MultiInstanceLoopCharacteristics)
    (lc : Ptr .Expression) (ldi : Ptr .ItemAwareElement) :
    a.attachMultiInstance { m with LoopCardinality := lc, LoopDataInput := ldi }
      = a.attachMultiInstance m ∧
    (a.attachMultiInstance { m with LoopCardinality := lc, LoopDataInput := ldi }).LoopCharacteristics
      = m.LoopCharacteristics :=
  ⟨rfl, rfl⟩

/-! ## C9: behavior tag and completion-event fields -/

/-- C9 (counterexample): `multiInstanceOneComplex` has behavior `One` and
`ComplexBahaviorDefinition` populated, so its populated fields do not agree
with its tag; it is a value of the model and is attached to an activity like
any other. -/
theorem C9_behavior_one_with_complex_definition :
    multiInstanceOneComplex.Behavior = MultiInstanceBehaviorOne ∧
    multiInstanceOneComplex.ComplexBahaviorDefinition ≠ .nil ∧
    ¬ ((multiInstanceOneComplex.NoneBehaviorEvent ≠ .nil →
          multiInstanceOneComplex.Behavior = MultiInstanceBehaviorNone) ∧
       (multiInstanceOneComplex.OneBehaviourElement ≠ .nil →
          multiInstanceOneComplex.Behavior = MultiInstanceBehaviorOne) ∧
       (multiInstanceOneComplex.ComplexBahaviorDefinition ≠ .nil →
          multiInstanceOneComplex.Behavior = MultiInstanceBehaviorComplex)) ∧
    (scenarioActivity.attachMultiInstance multiInstanceOneComplex).LoopCharacteristics
      = multiInstanceOneComplex.LoopCharacteristics ∧
    (scenarioActivity.attachMultiInstance multiInstanceOneComplex).LoopCharacteristics
      ≠ .nil := by
  decide

/-- C9 (amended): the behavior tag and the three completion-event fields are
independent and are never overridden: a characteristic given tag `b` and the
pointers `n`, `o`, `c` holds exactly these four values, whatever the
combination, and attaching it to an activity does not depend on them. -/
theorem C9_behavior_fields_are_stored_as_given (a : Activity)
    (m : MultiInstanceLoopCharacteristics) (b : MultiInstanceBehavior)
    (n o : Ptr .EventDefinition) (c : Ptr .ComplexBahaviorDefinition) :
    (m.setBehavior b n o c).Behavior = b ∧
    (m.setBehavior b n o c).NoneBehaviorEvent = n ∧
    (m.setBehavior b n o c).OneBehaviourElement = o ∧
    (m.setBehavior b n o c).ComplexBahaviorDefinition = c ∧
    a.attachMultiInstance (m.setBehavior b n o c) = a.attachMultiInstance m :=
  ⟨rfl, rfl, rfl, rfl, rfl⟩

/-! ## C10: the default sequence flow -/

/-- C10 (counterexample): in `scenarioDefault` the `Default` of activity `T` is
the flow `f1`, whose `Source` is the flow node of `S`, not that of `T`, and
whose `ConditionExpression` is set. -/
theorem C10_default_flow_of_another_node_with_condition :
    scenarioDefault.activities.deref (.ref 0) = some scenarioDefaultActivity ∧
    scenarioDefault.sequenceFlows.deref scenarioDefaultActivity.Default
      = some scenarioDefaultFlow ∧
    scenarioDefaultFlow.Source ≠ scenarioDefaultActivity.FlowNode ∧
    scenarioDefault.flowNodeID scenarioDefaultFlow.Source = some "S" ∧
    scenarioDefault.flowNodeID scenarioDefaultActivity.FlowNode = some "T" ∧
    scenarioDefaultFlow.ConditionExpression ≠ .nil ∧
    ¬ (∀ (h : Heap) (a : Activity) (f : SequenceFlow),
        h.sequenceFlows.deref a.Default = some f →
          f.Source = a.FlowNode ∧ f.ConditionExpression = .nil) := by
  refine ⟨by decide, by decide, by decide, by decide, by decide, by decide, ?_⟩
  intro hall
  exact absurd (hall scenarioDefault scenarioDefaultActivity scenarioDefaultFlow (by decide)).1
    (by decide)

/-- C10 (amended): `Default` is an unconstrained pointer: any sequence flow of
the store, whatever its `Source` and `ConditionExpression`, can be made the
`Default` of any activity, and reading the activity's `Default` gives that
flow back unchanged, the activity's flow node being unchanged too. -/
theorem C10_any_flow_can_be_the_default (h : Heap) (a : Activity) (i : Nat) (f : SequenceFlow)
    (hf : h.sequenceFlows.deref (.ref i) = some f) :
    h.sequenceFlows.deref ({ a with Default := .ref i }).Default = some f ∧
    ({ a with Default := .ref i }).FlowNode = a.FlowNode :=
  ⟨hf, rfl⟩

/-- C10 (witness): in `scenarioDefault`, flow `f1` (source `S`, with a
condition) made the `Default` of the scenario's activity `T`. -/
theorem C10_any_flow_can_be_the_default_witness :
    scenarioDefault.sequenceFlows.deref (.ref 0) = some scenarioDefaultFlow ∧
    (scenarioDefault.sequenceFlows.deref
        ({ scenarioActivity with Default := .ref 0 }).Default = some scenarioDefaultFlow ∧
     ({ scenarioActivity with Default := .ref 0 }).FlowNode = scenarioActivity.FlowNode) :=
  ⟨by decide, C10_any_flow_can_be_the_default scenarioDefault scenarioActivity 0
    scenarioDefaultFlow (by decide)⟩

/-! ## Helper lemmas for resource roles, identifiers and extension values -/

/-- A potential owner built on the human performer `newHumanPerformerOf`
returns reads the `Resource` of the role it was made of. -/
theorem potentialOwner_resource_newHumanPerformerOf (h : Heap) (r : ResourceRole) :
    PotentialOwner.Resource (h.newHumanPerformerOf r).1
      { HumanPerformer := (h.newHumanPerformerOf r).2 } = some r.Resource := by
  simp [PotentialOwner.Resource, Performer.Resource, Heap.newHumanPerformerOf,
    Heap.newHumanPerformer, Heap.newPerformer, Heap.newResourceRole, Arena.deref, Arena.alloc]

/-- A potential owner built on the human performer `newHumanPerformerOf`
returns reads the `ResourceAssignmentExpression` of the role it was made of. -/
theorem potentialOwner_expression_newHumanPerformerOf (h : Heap) (r : ResourceRole) :
    PotentialOwner.ResourceAssignmentExpression (h.newHumanPerformerOf r).1
      { HumanPerformer := (h.newHumanPerformerOf r).2 }
      = some r.ResourceAssignmentExpression := by
  simp [PotentialOwner.ResourceAssignmentExpression, Performer.ResourceAssignmentExpression,
    Heap.newHumanPerformerOf, Heap.newHumanPerformer, Heap.newPerformer, Heap.newResourceRole,
    Arena.deref, Arena.alloc]

/-! ## C11: resource roles -/

/-- C11 (counterexample): the zero-value `ResourceRole`, and the role built by
the literal `ResourceRole{Name: "owner"}`, have neither `Resource` nor
`ResourceAssignmentExpression` set; so it is not the case that exactly one of
the two is set in every resource role. -/
theorem C11_zero_value_resource_role_has_neither :
    ({} : ResourceRole).Resource = .nil ∧
    ({} : ResourceRole).ResourceAssignmentExpression = .nil ∧
    ({ Name := "owner" } : ResourceRole).Resource = .nil ∧
    ({ Name := "owner" } : ResourceRole).ResourceAssignmentExpression = .nil ∧
    ¬ (∀ r : ResourceRole,
        (r.Resource ≠ .nil ∧ r.ResourceAssignmentExpression = .nil) ∨
        (r.Resource = .nil ∧ r.ResourceAssignmentExpression ≠ .nil)) := by
  refine ⟨rfl, rfl, rfl, rfl, ?_⟩
  intro h
  rcases h {} with ⟨h1, _⟩ | ⟨_, h2⟩
  · exact h1 rfl
  · exact h2 rfl

/-- C11 (amended): `Resource` and `ResourceAssignmentExpression` are stored as
given, nil included: a role given the pointers `res` and `e` holds them, so
exactly one of the two is set in it exactly when exactly one of the pointers
given is not nil; a `Performer` and a `PotentialOwner` built on the role in any
store read the same two pointers. -/
theorem C11_resource_role_fields_are_stored_as_given (h : Heap) (r : ResourceRole)
    (res : Ptr .Resource) (e : Ptr .ResourceAssignmentExpression) :
    ({ r with Resource := res, ResourceAssignmentExpression := e }).Resource = res ∧
    ({ r with Resource := res, ResourceAssignmentExpression := e }).ResourceAssignmentExpression
      = e ∧
    ((({ r with Resource := res, ResourceAssignmentExpression := e }).Resource ≠ .nil ∧
        ({ r with Resource := res,
                  ResourceAssignmentExpression := e }).ResourceAssignmentExpression = .nil) ∨
      (({ r with Resource := res, ResourceAssignmentExpression := e }).Resource = .nil ∧
        ({ r with Resource := res,
                  ResourceAssignmentExpression := e }).ResourceAssignmentExpression ≠ .nil) ↔
     (res ≠ .nil ∧ e = .nil) ∨ (res = .nil ∧ e ≠ .nil)) ∧
    Performer.Resource
        (h.newResourceRole { r with Resource := res, ResourceAssignmentExpression := e }).1
        { ResourceRole :=
            (h.newResourceRole { r with Resource := res, ResourceAssignmentExpression := e }).2 }
      = some res ∧
    Performer.ResourceAssignmentExpression
        (h.newResourceRole { r with Resource := res, ResourceAssignmentExpression := e }).1
        { ResourceRole :=
            (h.newResourceRole { r with Resource := res, ResourceAssignmentExpression := e }).2 }
      = some e ∧
    PotentialOwner.Resource
        (h.newHumanPerformerOf { r with Resource := res, ResourceAssignmentExpression := e }).1
        { HumanPerformer :=
            (h.newHumanPerformerOf
              { r with Resource := res, ResourceAssignmentExpression := e }).2 }
      = some res ∧
    PotentialOwner.ResourceAssignmentExpression
        (h.newHumanPerformerOf { r with Resource := res, ResourceAssignmentExpression := e }).1
        { HumanPerformer :=
            (h.newHumanPerformerOf
              { r with Resource := res, ResourceAssignmentExpression := e }).2 }
      = some e := by
  have hr : (h.newResourceRole
      { r with Resource := res, ResourceAssignmentExpression := e }).1.resourceRoles.deref
        (h.newResourceRole { r with Resource := res, ResourceAssignmentExpression := e }).2
      = some { r with Resource := res, ResourceAssignmentExpression := e } :=
    deref_alloc h.resourceRoles _
  refine ⟨rfl, rfl, Iff.rfl, ?_, ?_, potentialOwner_resource_newHumanPerformerOf h _,
    potentialOwner_expression_newHumanPerformerOf h _⟩
  · simp only [Performer.Resource, hr]
    rfl
  · simp only [Performer.ResourceAssignmentExpression, hr]
    rfl

/-! ## C12: standard loop characteristics -/

/-- C12 (counterexample): the zero-value `StandardLoopCharacteristics`, and one
built by a literal that gives no `LoopCondition`, have `LoopCondition` unset;
the latter is attached to an activity like any other: after the assignment the
activity's `LoopCharacteristics` is the characteristic's, not nil. -/
theorem C12_standard_loop_without_condition_is_attached :
    ({} : StandardLoopCharacteristics).LoopCondition = .nil ∧
    standardLoopWithoutCondition.LoopCondition = .nil ∧
    (scenarioActivity.attachStandardLoop standardLoopWithoutCondition).LoopCharacteristics
      = standardLoopWithoutCondition.LoopCharacteristics ∧
    (scenarioActivity.attachStandardLoop standardLoopWithoutCondition).LoopCharacteristics
      ≠ .nil ∧
    ¬ (∀ s : StandardLoopCharacteristics, s.LoopCondition ≠ .nil) := by
  refine ⟨rfl, rfl, rfl, by decide, ?_⟩
  intro h
  exact h {} rfl

/-- C12 (amended): `LoopCondition` is an optional pointer, stored as given, nil
included, and attaching a standard loop characteristic to an activity does not
depend on it: whatever `LoopCondition` is, the activity obtained is the same,
its `LoopCharacteristics` being the characteristic's embedded
`LoopCharacteristics`. -/
theorem C12_loop_condition_is_optional (a : Activity) (s : StandardLoopCharacteristics)
    (lc : Ptr .Expression) :
    ({ s with LoopCondition := lc }).LoopCondition = lc ∧
    a.attachStandardLoop { s with LoopCondition := lc } = a.attachStandardLoop s ∧
    (a.attachStandardLoop { s with LoopCondition := lc }).LoopCharacteristics
      = s.LoopCharacteristics :=
  ⟨rfl, rfl, rfl⟩

/-! ## C13: identifiers -/

/-- C13 (counterexample): in `duplicates` the `Definitions` owns two distinct
root elements, with distinct base elements, that both have the identifier
"dup"; and the target of the sequence flow is a flow node whose identifier is
the empty string.  A `Resource`, the target of a resource role's `Resource`,
has no identifier at all: its pointer fields lead to `ResourceParameter`
objects only, never to a `BaseElement`, the one struct with an `ID`. -/
theorem C13_duplicate_and_empty_identifiers :
    duplicates.definitions.deref (.ref 0) = some duplicatesDefinitions ∧
    duplicatesDefinitions.RootElements = [.ref 0, .ref 1] ∧
    (Ptr.ref 0 : Ptr .RootElement) ≠ .ref 1 ∧
    (duplicates.rootElements.deref (.ref 0)).map (fun r => r.BaseElement) = some (.ref 1) ∧
    (duplicates.rootElements.deref (.ref 1)).map (fun r => r.BaseElement) = some (.ref 2) ∧
    duplicates.rootElementID (.ref 0) = some "dup" ∧
    duplicates.rootElementID (.ref 1) = some "dup" ∧
    duplicates.sequenceFlows.deref (.ref 0) = some duplicatesFlow ∧
    duplicates.flowNodeID duplicatesFlow.Target = some "" ∧
    (∀ r : Resource, ∀ l ∈ r.pointers, l.ty = .ResourceParameter) := by
  refine ⟨by decide, by decide, by decide, by decide, by decide, by decide, by decide,
    by decide, by decide, ?_⟩
  exact fun r l hl => ptrLocs_ty _ l hl

/-- C13 (amended): an identifier is a plain string, stored as given, the empty
string included, and references do not depend on it: assigning any identifier
to a base element of the store succeeds, the base element then holds that
identifier, every flow node and root element built on it reads it, and the
flow nodes, sequence flows, root elements, `Definitions`, activities and
boundary events of the store (hence every reference among them) are
unchanged. -/
theorem C13_identifiers_are_stored_as_given (h : Heap) (n : Nat) (b : BaseElement)
    (id : String) (hb : h.baseElements.deref (.ref n) = some b) :
    ∃ h', h.setBaseElementID (.ref n) id = some h' ∧
      h'.baseElements.deref (.ref n) = some { b with ID := id } ∧
      h'.flowNodes = h.flowNodes ∧ h'.sequenceFlows = h.sequenceFlows ∧
      h'.rootElements = h.rootElements ∧ h'.definitions = h.definitions ∧
      h'.activities = h.activities ∧ h'.boundaryEvents = h.boundaryEvents ∧
      (∀ q x, h.flowNodes.deref q = some x → x.BaseElement = .ref n →
        h'.flowNodeID q = some id) ∧
      (∀ q x, h.rootElements.deref q = some x → x.BaseElement = .ref n →
        h'.rootElementID q = some id) := by
  have hb' : h.baseElements.objs[n]? = some b := hb
  have hlt : n < h.baseElements.objs.length := by
    rcases Nat.lt_or_ge n h.baseElements.objs.length with hlt | hge
    · exact hlt
    · rw [List.getElem?_eq_none hge] at hb'
      cases hb'
  have hset : (⟨h.baseElements.objs.set n { b with ID := id }⟩ :
      Arena .BaseElement BaseElement).deref (.ref n) = some { b with ID := id } := by
    simp [Arena.deref, hlt]
  refine ⟨{ h with baseElements := ⟨h.baseElements.objs.set n { b with ID := id }⟩ },
    ?_, hset, rfl, rfl, rfl, rfl, rfl, rfl, ?_, ?_⟩
  · simp [Heap.setBaseElementID, hb']
  · intro q x hq hx
    simp only [Heap.flowNodeID, hq, Option.bind_eq_bind, Option.some_bind, hx, hset]
    rfl
  · intro q x hq hx
    simp only [Heap.rootElementID, hq, Option.bind_eq_bind, Option.some_bind, hx, hset]
    rfl

/-- C13 (witness): in `duplicates`, the base element with the empty
identifier (address 3) is given the identifier "B". -/
theorem C13_identifiers_are_stored_as_given_witness :
    duplicates.baseElements.deref (.ref 3) = some { ID := "" } ∧
    ∃ h', duplicates.setBaseElementID (.ref 3) "B" = some h' ∧
      h'.baseElements.deref (.ref 3) = some { ({ ID := "" } : BaseElement) with ID := "B" } ∧
      h'.flowNodes = duplicates.flowNodes ∧ h'.sequenceFlows = duplicates.sequenceFlows ∧
      h'.rootElements = duplicates.rootElements ∧ h'.definitions = duplicates.definitions ∧
      h'.activities = duplicates.activities ∧ h'.boundaryEvents = duplicates.boundaryEvents ∧
      (∀ q x, duplicates.flowNodes.deref q = some x → x.BaseElement = .ref 3 →
        h'.flowNodeID q = some "B") ∧
      (∀ q x, duplicates.rootElements.deref q = some x → x.BaseElement = .ref 3 →
        h'.rootElementID q = some "B") :=
  ⟨by decide, C13_identifiers_are_stored_as_given duplicates 3 { ID := "" } "B" (by decide)⟩

/-! ## C14: extension values -/

/-- C14 (counterexample): the element `extendedElement`, obtained by adding
two extension values one after the other, holds two distinct values whose
definitions have the same name "color": nothing was rejected and the values
with that name are two, not one. -/
theorem C14_two_values_for_one_name :
    extendedElement.ExtensionValues = [.ref 0, .ref 1] ∧
    (Ptr.ref 0 : Ptr .ExtensionAttributeValue) ≠ .ref 1 ∧
    extended.extensionValueName (.ref 0) = some "color" ∧
    extended.extensionValueName (.ref 1) = some "color" ∧
    extendedElement.ExtensionValues.filter
        (fun v => decide (extended.extensionValueName v = some "color"))
      = [.ref 0, .ref 1] ∧
    extendedElement.ExtensionValues.filter
        (fun v => decide (extended.extensionValueName v = some "size"))
      = [] := by
  decide

/-- C14 (amended): adding an extension value to an element appends it to
`ExtensionValues`, whatever the name of its definition: the values whose
definition has a given name `n` are, after the addition, those there were
before followed by the added value if its definition has the name `n`; they
can be none, one or several. -/
theorem C14_adding_an_extension_value_appends_it (h : Heap) (b : BaseElement)
    (v : Ptr .ExtensionAttributeValue) (n : String) :
    (b.appendExtensionValue v).ExtensionValues = b.ExtensionValues ++ [v] ∧
    (b.appendExtensionValue v).ExtensionValues.filter
        (fun w => decide (h.extensionValueName w = some n))
      = b.ExtensionValues.filter (fun w => decide (h.extensionValueName w = some n)) ++
          (if h.extensionValueName v = some n then [v] else []) := by
  refine ⟨rfl, ?_⟩
  simp only [BaseElement.appendExtensionValue, List.filter_append]
  by_cases hv : h.extensionValueName v = some n
  · simp [List.filter, hv]
  · simp [List.filter, hv]


/-! ## Helper lemmas on pointer fields -/

/-- The pointer fields of a `Process` lead to no `RootElement`. -/
theorem process_pointers_ty (p : Process) : ∀ l ∈ p.pointers, l.ty ≠ .RootElement := by
  intro l hl
  simp only [Process.pointers, List.mem_append] at hl
  rcases hl with ((((((hl | hl) | hl) | hl) | hl) | hl) | hl) | hl <;>
    first
    | (have h := ptrLoc_ty _ l hl; simp [h])
    | (have h := ptrLocs_ty _ l hl; simp [h])

/-- The pointer fields of a `Message` lead to no `RootElement`. -/
theorem message_pointers_ty (m : Message) : ∀ l ∈ m.pointers, l.ty ≠ .RootElement := by
  intro l hl
  simp only [Message.pointers, List.mem_append] at hl
  rcases hl with hl | hl <;>
    (have h := ptrLoc_ty _ l hl; simp [h])

/-- In the scenario, `scenarioProcessReachable` is closed under following
pointer fields. -/
theorem scenarioProcessReachable_closed :
    ∀ l ∈ scenarioProcessReachable, ∀ s ∈ scenario.succ l, s ∈ scenarioProcessReachable := by
  decide

/-- A live pointer that is not nil refers to an object. -/
theorem deref_of_live {T : TypeName} {α : Type} (a : Arena T α) (p : Ptr T)
    (hp : a.live p = true) (hne : p ≠ .nil) : ∃ x, a.deref p = some x := by
  cases hd : a.deref p with
  | none => exact absurd ((deref_eq_none_iff a p hp).1 hd) hne
  | some x => exact ⟨x, rfl⟩

/-- A pointer that refers to an object is not nil. -/
theorem ne_nil_of_deref {T : TypeName} {α : Type} (a : Arena T α) (p : Ptr T) (x : α)
    (hd : a.deref p = some x) : p ≠ .nil := by
  intro e
  rw [e] at hd
  cases hd

/-! ## C16: flow nodes and flow elements -/

/-- C17 (counterexample): the zero value of each of the twelve variants has a
nil embedded pointer and yields no `Activity`, in the scenario and in any
store, for any boundary event: the `*Activity` obtained is nil or obtaining it
panics, and a boundary event whose `AttachedTo` is set from it is attached to
no activity.
The same holds of `ServiceTask{Task: &Task{}}`, whose task embeds a nil
`*Activity`. -/
theorem C17_zero_value_variants_yield_no_activity :
    (({} : Task).Activity = .nil ∧ ({} : SubProcess).Activity = .nil ∧
      ({} : CallActivity).Activity = .nil ∧ ({} : ServiceTask).Task = .nil ∧
      ({} : UserTask).Task = .nil ∧ ({} : ScriptTask).Task = .nil ∧
      ({} : SendTask).Task = .nil ∧ ({} : ReceiveTask).Task = .nil ∧
      ({} : BusinessRuleTask).Task = .nil ∧ ({} : ManualTask).Task = .nil ∧
      ({} : AdHocSubProcess).SubProcess = .nil ∧ ({} : Transaction).SubProcess = .nil) ∧
    (scenarioBoundaryEvent.attachedVia scenario (ServiceTask.Activity scenario {}) = none ∧
      scenarioBoundaryEvent.attachedVia scenario (some ({} : CallActivity).Activity) = none) ∧
    (∀ (h : Heap) (b : BoundaryEvent),
      b.attachedVia h (some ({} : Task).Activity) = none ∧
      b.attachedVia h (some ({} : SubProcess).Activity) = none ∧
      b.attachedVia h (some ({} : CallActivity).Activity) = none ∧
      b.attachedVia h (ServiceTask.Activity h {}) = none ∧
      b.attachedVia h (UserTask.Activity h {}) = none ∧
      b.attachedVia h (ScriptTask.Activity h {}) = none ∧
      b.attachedVia h (SendTask.Activity h {}) = none ∧
      b.attachedVia h (ReceiveTask.Activity h {}) = none ∧
      b.attachedVia h (BusinessRuleTask.Activity h {}) = none ∧
      b.attachedVia h (ManualTask.Activity h {}) = none ∧
      b.attachedVia h (AdHocSubProcess.Activity h {}) = none ∧
      b.attachedVia h (Transaction.Activity h {}) = none ∧
      ServiceTask.Activity (h.newTask {}).1 { Task := (h.newTask {}).2 } = some .nil ∧
      b.attachedVia (h.newTask {}).1
        (ServiceTask.Activity (h.newTask {}).1 { Task := (h.newTask {}).2 }) = none) := by
  refine ⟨⟨rfl, rfl, rfl, rfl, rfl, rfl, rfl, rfl, rfl, rfl, rfl, rfl⟩, ⟨rfl, rfl⟩, ?_⟩
  intro h b
  refine ⟨rfl, rfl, rfl, rfl, rfl, rfl, rfl, rfl, rfl, rfl, rfl, rfl, ?_, ?_⟩
  · simp [ServiceTask.Activity, taskActivity, Heap.newTask, Arena.alloc, Arena.deref]
  · simp [ServiceTask.Activity, taskActivity, Heap.newTask, Arena.alloc, Arena.deref,
      BoundaryEvent.attachedVia, BoundaryEvent.attachedActivity]

/-- C17 (amended): a variant yields an `Activity` that a boundary event can be
attached to exactly when its embedded pointers are not nil, and the activity is
then the variant's own, with all its shared fields.  For live pointers `pa`,
`pt` and `ps`: a `Task`, `SubProcess` or `CallActivity` embedding `pa` yields
the activity `pa` refers to, and yields one exactly when `pa` is not nil; each
of the seven structs embedding the task `pt` yields the activity of that task,
and yields one exactly when `pt` and the task's `Activity` are not nil; each
of the two structs embedding the sub-process `ps` yields the activity of that
sub-process, and yields one exactly when `ps` and the sub-process's `Activity`
are not nil. -/
theorem C17_variant_yields_its_activity_iff_pointers_are_set (h : Heap) (b : BoundaryEvent)
    (pa : Ptr .Activity) (pt : Ptr .Task) (ps : Ptr .SubProcess)
    (hla : h.activities.live pa = true) (hlt : taskPointersLive h pt = true)
    (hls : subProcessPointersLive h ps = true) :
    ((∃ a, b.attachedVia h (some pa) = some a) ↔ pa ≠ .nil) ∧
    (∀ v : Task, v.Activity = pa →
      b.attachedVia h (some v.Activity) = h.activities.deref pa) ∧
    (∀ v : SubProcess, v.Activity = pa →
      b.attachedVia h (some v.Activity) = h.activities.deref pa) ∧
    (∀ v : CallActivity, v.Activity = pa →
      b.attachedVia h (some v.Activity) = h.activities.deref pa) ∧
    ((∃ a, b.attachedVia h (taskActivity h pt) = some a) ↔
      (pt ≠ .nil ∧ ∀ t, h.tasks.deref pt = some t → t.Activity ≠ .nil)) ∧
    (∀ t, h.tasks.deref pt = some t →
      b.attachedVia h (taskActivity h pt) = h.activities.deref t.Activity) ∧
    (∀ v : ServiceTask, v.Task = pt →
      b.attachedVia h (ServiceTask.Activity h v) = b.attachedVia h (taskActivity h pt)) ∧
    (∀ v : UserTask, v.Task = pt →
      b.attachedVia h (UserTask.Activity h v) = b.attachedVia h (taskActivity h pt)) ∧
    (∀ v : ScriptTask, v.Task = pt →
      b.attachedVia h (ScriptTask.Activity h v) = b.attachedVia h (taskActivity h pt)) ∧
    (∀ v : SendTask, v.Task = pt →
      b.attachedVia h (SendTask.Activity h v) = b.attachedVia h (taskActivity h pt)) ∧
    (∀ v : ReceiveTask, v.Task = pt →
      b.attachedVia h (ReceiveTask.Activity h v) = b.attachedVia h (taskActivity h pt)) ∧
    (∀ v : BusinessRuleTask, v.Task = pt →
      b.attachedVia h (BusinessRuleTask.Activity h v) = b.attachedVia h (taskActivity h pt)) ∧
    (∀ v : ManualTask, v.Task = pt →
      b.attachedVia h (ManualTask.Activity h v) = b.attachedVia h (taskActivity h pt)) ∧
    ((∃ a, b.attachedVia h (subProcessActivity h ps) = some a) ↔
      (ps ≠ .nil ∧ ∀ s, h.subProcesses.deref ps = some s → s.Activity ≠ .nil)) ∧
    (∀ s, h.subProcesses.deref ps = some s →
      b.attachedVia h (subProcessActivity h ps) = h.activities.deref s.Activity) ∧
    (∀ v : AdHocSubProcess, v.SubProcess = ps →
      b.attachedVia h (AdHocSubProcess.Activity h v)
        = b.attachedVia h (subProcessActivity h ps)) ∧
    (∀ v : Transaction, v.SubProcess = ps →
      b.attachedVia h (Transaction.Activity h v)
        = b.attachedVia h (subProcessActivity h ps)) := by
  have direct : ∀ q : Ptr .Activity, b.attachedVia h (some q) = h.activities.deref q :=
    fun _ => rfl
  have vt : ∀ t, h.tasks.deref pt = some t →
      b.attachedVia h (taskActivity h pt) = h.activities.deref t.Activity := by
    intro t ht
    simp only [taskActivity, ht, Option.bind_eq_bind, Option.some_bind, Option.pure_def,
      direct]
  have vs : ∀ s, h.subProcesses.deref ps = some s →
      b.attachedVia h (subProcessActivity h ps) = h.activities.deref s.Activity := by
    intro s hs
    simp only [subProcessActivity, hs, Option.bind_eq_bind, Option.some_bind,
      Option.pure_def, direct]
  simp only [taskPointersLive, Bool.and_eq_true] at hlt
  simp only [subProcessPointersLive, Bool.and_eq_true] at hls
  refine ⟨⟨?_, ?_⟩, ?_, ?_, ?_, ⟨?_, ?_⟩, vt, ?_, ?_, ?_, ?_, ?_, ?_, ?_, ⟨?_, ?_⟩, vs,
    ?_, ?_⟩
  · rintro ⟨a, ha⟩
    rw [direct] at ha
    exact ne_nil_of_deref _ _ _ ha
  · intro hne
    obtain ⟨a, ha⟩ := deref_of_live _ _ hla hne
    exact ⟨a, by rw [direct, ha]⟩
  · intro v hv
    rw [hv, direct]
  · intro v hv
    rw [hv, direct]
  · intro v hv
    rw [hv, direct]
  · rintro ⟨a, ha⟩
    cases ht : h.tasks.deref pt with
    | none =>
      simp [taskActivity, ht, BoundaryEvent.attachedVia] at ha
    | some t =>
      refine ⟨ne_nil_of_deref _ _ _ ht, ?_⟩
      intro t' ht'
      cases ht'
      rw [vt t ht] at ha
      exact ne_nil_of_deref _ _ _ ha
  · rintro ⟨hne, hall⟩
    obtain ⟨t, ht⟩ := deref_of_live _ _ hlt.1 hne
    have hl2 := hlt.2
    simp only [ht] at hl2
    obtain ⟨a, ha⟩ := deref_of_live _ _ hl2 (hall t ht)
    exact ⟨a, by rw [vt t ht, ha]⟩
  · intro v hv
    rw [← hv]
    rfl
  · intro v hv
    rw [← hv]
    rfl
  · intro v hv
    rw [← hv]
    rfl
  · intro v hv
    rw [← hv]
    rfl
  · intro v hv
    rw [← hv]
    rfl
  · intro v hv
    rw [← hv]
    rfl
  · intro v hv
    rw [← hv]
    rfl
  · rintro ⟨a, ha⟩
    cases hs : h.subProcesses.deref ps with
    | none =>
      simp [subProcessActivity, hs, BoundaryEvent.attachedVia] at ha
    | some s =>
      refine ⟨ne_nil_of_deref _ _ _ hs, ?_⟩
      intro s' hs'
      cases hs'
      rw [vs s hs] at ha
      exact ne_nil_of_deref _ _ _ ha
  · rintro ⟨hne, hall⟩
    obtain ⟨s, hs⟩ := deref_of_live _ _ hls.1 hne
    have hl2 := hls.2
    simp only [hs] at hl2
    obtain ⟨a, ha⟩ := deref_of_live _ _ hl2 (hall s hs)
    exact ⟨a, by rw [vs s hs, ha]⟩
  · intro v hv
    rw [← hv]
    rfl
  · intro v hv
    rw [← hv]
    rfl

/-- C17 (witness): in `scenarioWithSubProcess`, with the scenario's boundary
event: the activity of `T` (address 0), the task of `T` (address 0) and the
sub-process (address 0, on `scenarioSubProcessActivity`).  The structs built
on them yield these two activities. -/
theorem C17_variant_yields_its_activity_iff_pointers_are_set_witness :
    (scenarioWithSubProcess.activities.live (.ref 0) = true ∧
      taskPointersLive scenarioWithSubProcess (.ref 0) = true ∧
      subProcessPointersLive scenarioWithSubProcess (.ref 0) = true ∧
      scenarioBoundaryEvent.attachedVia scenarioWithSubProcess
        (ServiceTask.Activity scenarioWithSubProcess { Task := .ref 0 })
        = some scenarioActivity ∧
      scenarioBoundaryEvent.attachedVia scenarioWithSubProcess
        (Transaction.Activity scenarioWithSubProcess { SubProcess := .ref 0 })
        = some scenarioSubProcessActivity) ∧
    (((∃ a, scenarioBoundaryEvent.attachedVia scenarioWithSubProcess (some (.ref 0 : Ptr .Activity)) = some a) ↔ (.ref 0 : Ptr .Activity) ≠ .nil) ∧
    (∀ v : Task, v.Activity = (.ref 0 : Ptr .Activity) →
      scenarioBoundaryEvent.attachedVia scenarioWithSubProcess (some v.Activity) = scenarioWithSubProcess.activities.deref (.ref 0 : Ptr .Activity)) ∧
    (∀ v : SubProcess, v.Activity = (.ref 0 : Ptr .Activity) →
      scenarioBoundaryEvent.attachedVia scenarioWithSubProcess (some v.Activity) = scenarioWithSubProcess.activities.deref (.ref 0 : Ptr .Activity)) ∧
    (∀ v : CallActivity, v.Activity = (.ref 0 : Ptr .Activity) →
      scenarioBoundaryEvent.attachedVia scenarioWithSubProcess (some v.Activity) = scenarioWithSubProcess.activities.deref (.ref 0 : Ptr .Activity)) ∧
    ((∃ a, scenarioBoundaryEvent.attachedVia scenarioWithSubProcess (taskActivity scenarioWithSubProcess (.ref 0 : Ptr .Task)) = some a) ↔
      ((.ref 0 : Ptr .Task) ≠ .nil ∧ ∀ t, scenarioWithSubProcess.tasks.deref (.ref 0 : Ptr .Task) = some t → t.Activity ≠ .nil)) ∧
    (∀ t, scenarioWithSubProcess.tasks.deref (.ref 0 : Ptr .Task) = some t →
      scenarioBoundaryEvent.attachedVia scenarioWithSubProcess (taskActivity scenarioWithSubProcess (.ref 0 : Ptr .Task)) = scenarioWithSubProcess.activities.deref t.Activity) ∧
    (∀ v : ServiceTask, v.Task = (.ref 0 : Ptr .Task) →
      scenarioBoundaryEvent.attachedVia scenarioWithSubProcess (ServiceTask.Activity scenarioWithSubProcess v) = scenarioBoundaryEvent.attachedVia scenarioWithSubProcess (taskActivity scenarioWithSubProcess (.ref 0 : Ptr .Task))) ∧
    (∀ v : UserTask, v.Task = (.ref 0 : Ptr .Task) →
      scenarioBoundaryEvent.attachedVia scenarioWithSubProcess (UserTask.Activity scenarioWithSubProcess v) = scenarioBoundaryEvent.attachedVia scenarioWithSubProcess (taskActivity scenarioWithSubProcess (.ref 0 : Ptr .Task))) ∧
    (∀ v : ScriptTask, v.Task = (.ref 0 : Ptr .Task) →
      scenarioBoundaryEvent.attachedVia scenarioWithSubProcess (ScriptTask.Activity scenarioWithSubProcess v) = scenarioBoundaryEvent.attachedVia scenarioWithSubProcess (taskActivity scenarioWithSubProcess (.ref 0 : Ptr .Task))) ∧
    (∀ v : SendTask, v.Task = (.ref 0 : Ptr .Task) →
      scenarioBoundaryEvent.attachedVia scenarioWithSubProcess (SendTask.Activity scenarioWithSubProcess v) = scenarioBoundaryEvent.attachedVia scenarioWithSubProcess (taskActivity scenarioWithSubProcess (.ref 0 : Ptr .Task))) ∧
    (∀ v : ReceiveTask, v.Task = (.ref 0 : Ptr .Task) →
      scenarioBoundaryEvent.attachedVia scenarioWithSubProcess (ReceiveTask.Activity scenarioWithSubProcess v) = scenarioBoundaryEvent.attachedVia scenarioWithSubProcess (taskActivity scenarioWithSubProcess (.ref 0 : Ptr .Task))) ∧
    (∀ v : BusinessRuleTask, v.Task = (.ref 0 : Ptr .Task) →
      scenarioBoundaryEvent.attachedVia scenarioWithSubProcess (BusinessRuleTask.Activity scenarioWithSubProcess v) = scenarioBoundaryEvent.attachedVia scenarioWithSubProcess (taskActivity scenarioWithSubProcess (.ref 0 : Ptr .Task))) ∧
    (∀ v : ManualTask, v.Task = (.ref 0 : Ptr .Task) →
      scenarioBoundaryEvent.attachedVia scenarioWithSubProcess (ManualTask.Activity scenarioWithSubProcess v) = scenarioBoundaryEvent.attachedVia scenarioWithSubProcess (taskActivity scenarioWithSubProcess (.ref 0 : Ptr .Task))) ∧
    ((∃ a, scenarioBoundaryEvent.attachedVia scenarioWithSubProcess (subProcessActivity scenarioWithSubProcess (.ref 0 : Ptr .SubProcess)) = some a) ↔
      ((.ref 0 : Ptr .SubProcess) ≠ .nil ∧ ∀ s, scenarioWithSubProcess.subProcesses.deref (.ref 0 : Ptr .SubProcess) = some s → s.Activity ≠ .nil)) ∧
    (∀ s, scenarioWithSubProcess.subProcesses.deref (.ref 0 : Ptr .SubProcess) = some s →
      scenarioBoundaryEvent.attachedVia scenarioWithSubProcess (subProcessActivity scenarioWithSubProcess (.ref 0 : Ptr .SubProcess)) = scenarioWithSubProcess.activities.deref s.Activity) ∧
    (∀ v : AdHocSubProcess, v.SubProcess = (.ref 0 : Ptr .SubProcess) →
      scenarioBoundaryEvent.attachedVia scenarioWithSubProcess (AdHocSubProcess.Activity scenarioWithSubProcess v)
        = scenarioBoundaryEvent.attachedVia scenarioWithSubProcess (subProcessActivity scenarioWithSubProcess (.ref 0 : Ptr .SubProcess))) ∧
    (∀ v : Transaction, v.SubProcess = (.ref 0 : Ptr .SubProcess) →
      scenarioBoundaryEvent.attachedVia scenarioWithSubProcess (Transaction.Activity scenarioWithSubProcess v)
        = scenarioBoundaryEvent.attachedVia scenarioWithSubProcess (subProcessActivity scenarioWithSubProcess (.ref 0 : Ptr .SubProcess)))) :=
  ⟨⟨by decide, by decide, by decide, by decide, by decide⟩,
    C17_variant_yields_its_activity_iff_pointers_are_set scenarioWithSubProcess
      scenarioBoundaryEvent (.ref 0) (.ref 0) (.ref 0) (by decide) (by decide) (by decide)⟩

/-! ## C18: the kind of loop characteristics -/

/-- C18 (counterexample): `standardLoopShared` and `multiInstanceBoth` embed
the same `LoopCharacteristics`; an activity given the one and the same
activity given the other are equal, so their `LoopCharacteristics` values are
not distinguishable although the kinds differ.  And all `LoopCharacteristics`
objects are equal: the struct has no field. -/
theorem C18_loop_kind_is_not_recoverable :
    standardLoopShared.LoopCharacteristics = multiInstanceBoth.LoopCharacteristics ∧
    scenarioActivity.attachStandardLoop standardLoopShared
      = scenarioActivity.attachMultiInstance multiInstanceBoth ∧
    (scenarioActivity.attachStandardLoop standardLoopShared).LoopCharacteristics ≠ .nil ∧
    (∀ x y : LoopCharacteristics, x = y) := by
  refine ⟨rfl, rfl, by decide, ?_⟩
  intro x y
  cases x
  cases y
  rfl

/-- C18 (amended): an activity holds of its loop characteristics only the
embedded `*LoopCharacteristics`, a pointer to a struct without fields: giving
an activity a standard loop characteristic or a multi-instance characteristic
stores that pointer and nothing of the kind, so that a standard and a
multi-instance characteristic embedding the same `LoopCharacteristics` yield
the same activity. -/
theorem C18_activity_holds_only_the_embedded_pointer (a : Activity)
    (s : StandardLoopCharacteristics) (m : MultiInstanceLoopCharacteristics) :
    (a.attachStandardLoop s).LoopCharacteristics = s.LoopCharacteristics ∧
    (a.attachMultiInstance m).LoopCharacteristics = m.LoopCharacteristics ∧
    a.attachStandardLoop { s with LoopCharacteristics := m.LoopCharacteristics }
      = a.attachMultiInstance m ∧
    a.attachMultiInstance { m with LoopCharacteristics := s.LoopCharacteristics }
      = a.attachStandardLoop s :=
  ⟨rfl, rfl, rfl, rfl⟩

/-! ## C19: gateway variants -/

/-- C19 (the code at the failing input): the four gateway directions are
pairwise distinct, and an exclusive, inclusive, parallel or complex gateway
built on a gateway `g` in any store reads the direction of `g` and the
identifier and name of the flow node of `g`; but an `EventBasedGateway` is
determined by its two fields `Instantiate` and `EventGatewayType` and has no
pointer field: it embeds no `Gateway` and carries no direction, identifier or
name. -/
theorem C19_event_based_gateway_embeds_no_gateway :
    [GatewayDirectionUnspecified, GatewayDirectionConverging, GatewayDirectionDiverging,
      GatewayDirectionMixer].Nodup ∧
    (∀ (h : Heap) (g : Gateway) (v : ExclusiveGateway),
      gatewayDirection (h.newGateway g).1 ({ v with Gateway := (h.newGateway g).2 }).Gateway
        = some g.GatewayDirection ∧
      gatewayID (h.newGateway g).1 ({ v with Gateway := (h.newGateway g).2 }).Gateway
        = h.flowNodeID g.FlowNode ∧
      gatewayName (h.newGateway g).1 ({ v with Gateway := (h.newGateway g).2 }).Gateway
        = (h.flowNodes.deref g.FlowNode).map (fun n => n.Name)) ∧
    (∀ (h : Heap) (g : Gateway) (v : InclusveGateway),
      gatewayDirection (h.newGateway g).1 ({ v with Gateway := (h.newGateway g).2 }).Gateway
        = some g.GatewayDirection ∧
      gatewayID (h.newGateway g).1 ({ v with Gateway := (h.newGateway g).2 }).Gateway
        = h.flowNodeID g.FlowNode ∧
      gatewayName (h.newGateway g).1 ({ v with Gateway := (h.newGateway g).2 }).Gateway
        = (h.flowNodes.deref g.FlowNode).map (fun n => n.Name)) ∧
    (∀ (h : Heap) (g : Gateway) (v : ParallelGateway),
      gatewayDirection (h.newGateway g).1 ({ v with Gateway := (h.newGateway g).2 }).Gateway
        = some g.GatewayDirection ∧
      gatewayID (h.newGateway g).1 ({ v with Gateway := (h.newGateway g).2 }).Gateway
        = h.flowNodeID g.FlowNode ∧
      gatewayName (h.newGateway g).1 ({ v with Gateway := (h.newGateway g).2 }).Gateway
        = (h.flowNodes.deref g.FlowNode).map (fun n => n.Name)) ∧
    (∀ (h : Heap) (g : Gateway) (v : ComplexGateway),
      gatewayDirection (h.newGateway g).1 ({ v with Gateway := (h.newGateway g).2 }).Gateway
        = some g.GatewayDirection ∧
      gatewayID (h.newGateway g).1 ({ v with Gateway := (h.newGateway g).2 }).Gateway
        = h.flowNodeID g.FlowNode ∧
      gatewayName (h.newGateway g).1 ({ v with Gateway := (h.newGateway g).2 }).Gateway
        = (h.flowNodes.deref g.FlowNode).map (fun n => n.Name)) ∧
    (∀ e e' : EventBasedGateway, e.Instantiate = e'.Instantiate →
      e.EventGatewayType = e'.EventGatewayType → e = e') ∧
    (∀ e : EventBasedGateway, e.pointers = []) := by
  have key : ∀ (h : Heap) (g : Gateway),
      gatewayDirection (h.newGateway g).1 (h.newGateway g).2 = some g.GatewayDirection ∧
      gatewayID (h.newGateway g).1 (h.newGateway g).2 = h.flowNodeID g.FlowNode ∧
      gatewayName (h.newGateway g).1 (h.newGateway g).2
        = (h.flowNodes.deref g.FlowNode).map (fun n => n.Name) := by
    intro h g
    have hg : (h.newGateway g).1.gateways.deref (h.newGateway g).2 = some g :=
      deref_alloc h.gateways g
    refine ⟨?_, ?_, ?_⟩
    · simp only [gatewayDirection, hg]
      rfl
    · simp only [gatewayID, hg]
      rfl
    · simp only [gatewayName, hg, Option.bind_eq_bind, Option.some_bind]
      cases hn : (h.flowNodes.deref g.FlowNode) <;>
        simp [Heap.newGateway, hn]
  refine ⟨by decide, fun h g _ => key h g, fun h g _ => key h g, fun h g _ => key h g,
    fun h g _ => key h g, ?_, fun _ => rfl⟩
  intro e e' h1 h2
  cases e
  cases e'
  simp only at h1 h2
  subst h1 h2
  rfl

/-! ## C20: root elements -/

/-- C20 (the code at the failing input): an `Error` and an `Interface` built
on a root element `r`, in any store, yield that root element, which reads the
identifier and the link to the `Definitions` of `r` and is appended to
`RootElements` like any root element; but no pointer field of a `Process` or
of a `Message` leads to a `RootElement`, and in the scenario no `RootElement`
is reachable from process `P`: the root element entered for it in the
`Definitions` is another object, which shares the base element of the
process's container. -/
theorem C20_process_and_message_embed_no_root_element :
    (∀ (h : Heap) (r : RootElement) (d : Definitions) (e : Error),
      (h.newRootElement r).1.rootElementID ({ e with RootElement := (h.newRootElement r).2
          }).RootElement = (h.baseElements.deref r.BaseElement).map (fun b => b.ID) ∧
      (h.newRootElement r).1.rootElementDefinition
          ({ e with RootElement := (h.newRootElement r).2 }).RootElement = some r.Definition ∧
      (d.appendRootElement ({ e with RootElement := (h.newRootElement r).2 }).RootElement
          ).RootElements = d.RootElements ++ [(h.newRootElement r).2]) ∧
    (∀ (h : Heap) (r : RootElement) (d : Definitions) (i : Interface),
      (h.newRootElement r).1.rootElementID ({ i with RootElement := (h.newRootElement r).2
          }).RootElement = (h.baseElements.deref r.BaseElement).map (fun b => b.ID) ∧
      (h.newRootElement r).1.rootElementDefinition
          ({ i with RootElement := (h.newRootElement r).2 }).RootElement = some r.Definition ∧
      (d.appendRootElement ({ i with RootElement := (h.newRootElement r).2 }).RootElement
          ).RootElements = d.RootElements ++ [(h.newRootElement r).2]) ∧
    (∀ e : Error, ∀ l ∈ ptrLoc e.RootElement, l ∈ e.pointers ∧ l.ty = .RootElement) ∧
    (∀ i : Interface, ∀ l ∈ ptrLoc i.RootElement, l ∈ i.pointers ∧ l.ty = .RootElement) ∧
    (∀ p : Process, ∀ l ∈ p.pointers, l.ty ≠ .RootElement) ∧
    (∀ m : Message, ∀ l ∈ m.pointers, l.ty ≠ .RootElement) ∧
    (∀ l, scenario.Reachable ⟨.Process, 0⟩ l → l ∈ scenarioProcessReachable) ∧
    (∀ i, ¬ scenario.Reachable ⟨.Process, 0⟩ ⟨.RootElement, i⟩) ∧
    scenario.processID (.ref 0) = some "P" ∧
    scenario.rootElementID (.ref 0) = some "P" := by
  have key : ∀ (h : Heap) (r : RootElement),
      (h.newRootElement r).1.rootElementID (h.newRootElement r).2
        = (h.baseElements.deref r.BaseElement).map (fun b => b.ID) ∧
      (h.newRootElement r).1.rootElementDefinition (h.newRootElement r).2
        = some r.Definition := by
    intro h r
    have hr : (h.newRootElement r).1.rootElements.deref (h.newRootElement r).2 = some r :=
      deref_alloc h.rootElements r
    refine ⟨?_, ?_⟩
    · simp only [Heap.rootElementID, hr, Option.bind_eq_bind, Option.some_bind]
      cases hb : (h.baseElements.deref r.BaseElement) <;>
        simp [Heap.newRootElement, hb]
    · simp only [Heap.rootElementDefinition, hr]
      rfl
  have reach : ∀ l, scenario.Reachable ⟨.Process, 0⟩ l → l ∈ scenarioProcessReachable :=
    fun l hr => reachable_mem_of_closed scenario scenarioProcessReachable _ l (by decide)
      scenarioProcessReachable_closed hr
  refine ⟨fun h r d _ => ⟨(key h r).1, (key h r).2, rfl⟩,
    fun h r d _ => ⟨(key h r).1, (key h r).2, rfl⟩, ?_, ?_, process_pointers_ty,
    message_pointers_ty, reach, ?_, by decide, by decide⟩
  · intro e l hl
    refine ⟨?_, ptrLoc_ty _ l hl⟩
    simp only [Error.pointers, List.mem_append]
    exact Or.inl hl
  · intro i l hl
    refine ⟨?_, ptrLoc_ty _ l hl⟩
    simp only [Interface.pointers, List.mem_append]
    exact Or.inl (Or.inl hl)
  · intro i hr
    have h := reach _ hr
    simp [scenarioProcessReachable] at h

/-! ## C21: sequence flows at an event sub-process -/

/-- C21 (counterexample): in `withEventSubProcess`, `X` is an event sub-process
(`TriggeredByEvent` is true) and its flow node is the `Target` of flow `f` and
the `Source` of flow `g`; adding `f`, then `g`, to the container of `P` is not
rejected: `FlowElements` goes from `[S, X]` to `[S, X, f]` to `[S, X, f, g]`. -/
theorem C21_flows_at_an_event_sub_process_are_added :
    withEventSubProcess.subProcesses.deref (.ref 0) = some eventSubProcess ∧
    eventSubProcess.TriggeredByEvent = true ∧
    (withEventSubProcess.activities.deref eventSubProcess.Activity).map (fun a => a.FlowNode)
      = some (.ref 1) ∧
    withEventSubProcess.sequenceFlows.deref (.ref 0) = some eventSubProcessFlow ∧
    withEventSubProcess.sequenceFlows.deref (.ref 1) = some eventSubProcessFlowBack ∧
    eventSubProcessFlow.Target = .ref 1 ∧
    eventSubProcessFlowBack.Source = .ref 1 ∧
    withEventSubProcess.flowNodeID (.ref 1) = some "X" ∧
    eventSubProcessContainer.ids withEventSubProcess = [some "S", some "X"] ∧
    (eventSubProcessContainer.appendFlowElement eventSubProcessFlow.FlowElement).ids
      withEventSubProcess = [some "S", some "X", some "f"] ∧
    ((eventSubProcessContainer.appendFlowElement
        eventSubProcessFlow.FlowElement).appendFlowElement
          eventSubProcessFlowBack.FlowElement).ids withEventSubProcess
      = [some "S", some "X", some "f", some "g"] := by
  decide

/-- C21 (amended): a sequence flow is added to a container by appending its
`FlowElement`, whatever its `Source` and `Target`; and `TriggeredByEvent` is a
plain flag of the sub-process that can be assigned any value at any time: the
assignment succeeds for every sub-process of the store, the sub-process then
holds the flag, and the sequence flows, flow nodes, flow elements, activities
and containers of the store are unchanged, so flows that start or end at the
sub-process stay where they are. -/
theorem C21_event_sub_process_flag_is_independent_of_flows (h : Heap)
    (c : FlowElementsContainer) (f : SequenceFlow) (n : Nat) (s : SubProcess) (b : Bool)
    (hs : h.subProcesses.deref (.ref n) = some s) :
    (c.appendFlowElement f.FlowElement).FlowElements = c.FlowElements ++ [f.FlowElement] ∧
    ∃ h', h.setTriggeredByEvent (.ref n) b = some h' ∧
      h'.subProcesses.deref (.ref n) = some { s with TriggeredByEvent := b } ∧
      h'.sequenceFlows = h.sequenceFlows ∧ h'.flowNodes = h.flowNodes ∧
      h'.flowElements = h.flowElements ∧ h'.activities = h.activities ∧
      h'.flowElementsContainers = h.flowElementsContainers ∧
      h'.baseElements = h.baseElements := by
  have hs' : h.subProcesses.objs[n]? = some s := hs
  have hlt : n < h.subProcesses.objs.length := by
    rcases Nat.lt_or_ge n h.subProcesses.objs.length with hlt | hge
    · exact hlt
    · rw [List.getElem?_eq_none hge] at hs'
      cases hs'
  refine ⟨rfl, { h with subProcesses :=
    ⟨h.subProcesses.objs.set n { s with TriggeredByEvent := b }⟩ }, ?_, ?_,
    rfl, rfl, rfl, rfl, rfl, rfl⟩
  · simp [Heap.setTriggeredByEvent, hs']
  · simp [Arena.deref, hlt]

/-- C21 (witness): a sub-process like `X` that is not event-triggered, with the
flows `f` and `g` at its flow node, is made an event sub-process. -/
theorem C21_event_sub_process_flag_is_independent_of_flows_witness :
    withEventSubProcess.subProcesses.deref (.ref 0) = some eventSubProcess ∧
    ((eventSubProcessContainer.appendFlowElement eventSubProcessFlow.FlowElement).FlowElements
      = eventSubProcessContainer.FlowElements ++ [eventSubProcessFlow.FlowElement] ∧
    ∃ h', withEventSubProcess.setTriggeredByEvent (.ref 0) false = some h' ∧
      h'.subProcesses.deref (.ref 0) = some { eventSubProcess with TriggeredByEvent := false } ∧
      h'.sequenceFlows = withEventSubProcess.sequenceFlows ∧
      h'.flowNodes = withEventSubProcess.flowNodes ∧
      h'.flowElements = withEventSubProcess.flowElements ∧
      h'.activities = withEventSubProcess.activities ∧
      h'.flowElementsContainers = withEventSubProcess.flowElementsContainers ∧
      h'.baseElements = withEventSubProcess.baseElements) :=
  ⟨by decide, C21_event_sub_process_flag_is_independent_of_flows withEventSubProcess
    eventSubProcessContainer eventSubProcessFlow 0 eventSubProcess false (by decide)⟩

/-! ## C22: the ordering of an ad-hoc sub-process -/

/-- C22 (code at the failing input): an `AdHocSubProcess` built without giving
an `Ordering`, the zero value or any literal that omits the field, has the
empty string as its `Ordering`, which is neither `AdHocOrderingParallel`
("Parallel") nor `AdHocOrderingSequential`; an `Ordering` that is given is
stored as given.  The integer tags of the gateways do have a declared constant
as their zero value. -/
theorem C22_ordering_not_given_is_the_empty_string :
    ({} : AdHocSubProcess).Ordering = "" ∧
    (∀ v0 : AdHocSubProcess, v0.withoutOrdering.Ordering = "" ∧
      v0.withoutOrdering.Ordering ≠ AdHocOrderingParallel ∧
      v0.withoutOrdering.Ordering ≠ AdHocOrderingSequential ∧
      v0.withoutOrdering.SubProcess = v0.SubProcess ∧
      v0.withoutOrdering.CancelRemainingInstances = v0.CancelRemainingInstances ∧
      v0.withoutOrdering.CompletionCondition = v0.CompletionCondition) ∧
    (∀ (v0 : AdHocSubProcess) (o : AdHocOrdering), ({ v0 with Ordering := o }).Ordering = o) ∧
    AdHocOrderingParallel = "Parallel" ∧
    AdHocOrderingParallel ≠ AdHocOrderingSequential ∧
    ({} : EventBasedGateway).EventGatewayType = EventBasedGatewayTypeParallel ∧
    ({} : Gateway).GatewayDirection = GatewayDirectionUnspecified := by
  refine ⟨rfl, ?_, fun _ _ => rfl, rfl, by decide, rfl, rfl⟩
  intro v0
  have e : v0.withoutOrdering.Ordering = "" := rfl
  refine ⟨e, ?_, ?_, rfl, rfl, rfl⟩
  · rw [e]
    decide
  · rw [e]
    decide

/-! ## C25: multi-instance behavior tags -/

/-- C25: the four behavior tags `None`, `One`, `All` and `Complex` are pairwise
distinct; the `Behavior` of the zero-value `MultiInstanceLoopCharacteristics`
is the empty string, which is none of the four; and so is the `Behavior` of
every characteristic built by a literal that does not give `Behavior`, whatever
its other fields. -/
theorem C25_behavior_not_given_is_no_tag :
    [MultiInstanceBehaviorNone, MultiInstanceBehaviorOne, MultiInstanceBehaviorAll,
      MultiInstanceBehaviorComplex].Nodup ∧
    ({} : MultiInstanceLoopCharacteristics).Behavior = "" ∧
    ({} : MultiInstanceLoopCharacteristics).Behavior ∉
      [MultiInstanceBehaviorNone, MultiInstanceBehaviorOne, MultiInstanceBehaviorAll,
        MultiInstanceBehaviorComplex] ∧
    (∀ m0 : MultiInstanceLoopCharacteristics,
      m0.withoutBehavior.Behavior ∉
        [MultiInstanceBehaviorNone, MultiInstanceBehaviorOne, MultiInstanceBehaviorAll,
          MultiInstanceBehaviorComplex] ∧
      m0.withoutBehavior.LoopCharacteristics = m0.LoopCharacteristics ∧
      m0.withoutBehavior.LoopCardinality = m0.LoopCardinality ∧
      m0.withoutBehavior.LoopDataInput = m0.LoopDataInput) := by
  refine ⟨by decide, rfl, by decide, ?_⟩
  intro m0
  have e : m0.withoutBehavior.Behavior = "" := rfl
  refine ⟨?_, rfl, rfl, rfl⟩
  rw [e]
  decide

/-! ## Helper lemma on assigning an identifier -/

/-- Assigning an identifier to a base element of the store succeeds, changes
that base element only, and leaves every other arena as it was. -/
theorem setBaseElementID_spec (h : Heap) (n : Nat) (b : BaseElement) (id : String)
    (hb : h.baseElements.deref (.ref n) = some b) :
    ∃ h', h.setBaseElementID (.ref n) id = some h' ∧
      h'.baseElements.deref (.ref n) = some { b with ID := id } ∧
      (∀ k, k ≠ n → h'.baseElements.deref (.ref k) = h.baseElements.deref (.ref k)) ∧
      h'.flowNodes = h.flowNodes ∧ h'.activities = h.activities ∧
      h'.flowElementsContainers = h.flowElementsContainers := by
  have hb' : h.baseElements.objs[n]? = some b := hb
  have hlt : n < h.baseElements.objs.length := by
    rcases Nat.lt_or_ge n h.baseElements.objs.length with hlt | hge
    · exact hlt
    · rw [List.getElem?_eq_none hge] at hb'
      cases hb'
  refine ⟨{ h with baseElements := ⟨h.baseElements.objs.set n { b with ID := id }⟩ },
    ?_, ?_, ?_, rfl, rfl, rfl⟩
  · simp [Heap.setBaseElementID, hb']
  · simp [Arena.deref, hlt]
  · intro k hk
    simp [Arena.deref, List.getElem?_set_ne (Ne.symm hk)]

/-! ## C23: the identifiers of a sub-process -/

/-- C23 (counterexample): `sharedSubProcess` is built on one `BaseElement`,
which both its container and its flow node embed; its two identifiers are the
same string "sp", setting the sub-process's `ID` sets the identifier of its
flow node, and setting the identifier of its activity sets the sub-process's
`ID`. -/
theorem C23_shared_base_element_gives_one_identity :
    (subProcessIdentities.flowElementsContainers.deref
      sharedSubProcess.FlowElementsContainer).map (fun c => c.BaseElement) = some (.ref 0) ∧
    ((subProcessIdentities.activities.deref sharedSubProcess.Activity).bind
      (fun a => subProcessIdentities.flowNodes.deref a.FlowNode)).map
        (fun n => n.BaseElement) = some (.ref 0) ∧
    sharedSubProcess.ID subProcessIdentities = some "sp" ∧
    subProcessIdentities.activityID sharedSubProcess.Activity = some "sp" ∧
    (sharedSubProcess.setID subProcessIdentities "renamed").bind
      (fun h' => h'.activityID sharedSubProcess.Activity) = some "renamed" ∧
    (subProcessIdentities.setActivityID sharedSubProcess.Activity "renamed").bind
      (fun h' => sharedSubProcess.ID h') = some "renamed" := by
  decide

/-- C23 (amended): the `ID` of a sub-process is that of the `BaseElement` of
its embedded container (at address `i`), and the identifier of its flow node,
read through the embedded activity, is that of the `BaseElement` of the flow
node (at address `j`).  Setting the sub-process's `ID` makes it the new
identifier and leaves the flow node's identifier unchanged when the two base
elements are different objects (`i ≠ j`); when they are the same object the
flow node's identifier becomes the new one as well.  The same holds the other
way round for setting the identifier of the activity. -/
theorem C23_sub_process_identifiers_follow_their_base_elements (h : Heap) (s : SubProcess)
    (c : FlowElementsContainer) (a : Activity) (fn : FlowNode) (i j : Nat)
    (bi bj : BaseElement) (id : String)
    (hc : h.flowElementsContainers.deref s.FlowElementsContainer = some c)
    (hci : c.BaseElement = .ref i) (hbi : h.baseElements.deref (.ref i) = some bi)
    (ha : h.activities.deref s.Activity = some a)
    (hn : h.flowNodes.deref a.FlowNode = some fn)
    (hnj : fn.BaseElement = .ref j) (hbj : h.baseElements.deref (.ref j) = some bj) :
    s.ID h = some bi.ID ∧
    h.activityID s.Activity = some bj.ID ∧
    (∃ h1, s.setID h id = some h1 ∧ s.ID h1 = some id ∧
      h1.activityID s.Activity = some (if i = j then id else bj.ID)) ∧
    (∃ h2, h.setActivityID s.Activity id = some h2 ∧ h2.activityID s.Activity = some id ∧
      s.ID h2 = some (if i = j then id else bi.ID)) := by
  have rID : ∀ (g : Heap) (x : BaseElement),
      g.flowElementsContainers = h.flowElementsContainers →
      g.baseElements.deref (.ref i) = some x → s.ID g = some x.ID := by
    intro g x e1 e2
    simp only [SubProcess.ID, e1, hc, Option.bind_eq_bind, Option.some_bind, hci, e2]
    rfl
  have rAct : ∀ (g : Heap) (x : BaseElement),
      g.activities = h.activities → g.flowNodes = h.flowNodes →
      g.baseElements.deref (.ref j) = some x → g.activityID s.Activity = some x.ID := by
    intro g x e1 e2 e3
    simp only [Heap.activityID, Heap.flowNodeID, e1, e2, ha, hn, Option.bind_eq_bind,
      Option.some_bind, hnj, e3]
    rfl
  refine ⟨rID h bi rfl hbi, rAct h bj rfl rfl hbj, ?_, ?_⟩
  · obtain ⟨h1, hset, hnew, hold, e1, e2, e3⟩ := setBaseElementID_spec h i bi id hbi
    refine ⟨h1, ?_, rID h1 _ e3 hnew, ?_⟩
    · simp only [SubProcess.setID, hc, Option.bind_eq_bind, Option.some_bind, hci, hset]
    · by_cases hij : i = j
      · subst hij
        rw [if_pos rfl]
        exact rAct h1 _ e2 e1 hnew
      · rw [if_neg hij]
        exact rAct h1 bj e2 e1 ((hold j (Ne.symm hij)).trans hbj)
  · obtain ⟨h2, hset, hnew, hold, e1, e2, e3⟩ := setBaseElementID_spec h j bj id hbj
    refine ⟨h2, ?_, rAct h2 _ e2 e1 hnew, ?_⟩
    · simp only [Heap.setActivityID, ha, hn, Option.bind_eq_bind, Option.some_bind, hnj, hset]
    · by_cases hij : i = j
      · subst hij
        rw [if_pos rfl]
        exact rID h2 _ e3 hnew
      · rw [if_neg hij]
        exact rID h2 bi e3 ((hold i hij).trans hbi)

/-- C23 (witness): `splitSubProcess` is built on two base elements, "c" for
the container (address 1) and "n" for the flow node (address 2): its two
identifiers differ, and setting either to "renamed" leaves the other as it
was. -/
theorem C23_sub_process_identifiers_follow_their_base_elements_witness :
    splitSubProcess.ID subProcessIdentities = some "c" ∧
    subProcessIdentities.activityID splitSubProcess.Activity = some "n" ∧
    (∃ h1, splitSubProcess.setID subProcessIdentities "renamed" = some h1 ∧
      splitSubProcess.ID h1 = some "renamed" ∧
      h1.activityID splitSubProcess.Activity = some "n") ∧
    (∃ h2, subProcessIdentities.setActivityID splitSubProcess.Activity "renamed" = some h2 ∧
      h2.activityID splitSubProcess.Activity = some "renamed" ∧
      splitSubProcess.ID h2 = some "c") :=
  C23_sub_process_identifiers_follow_their_base_elements subProcessIdentities splitSubProcess
    { BaseElement := .ref 1 } { FlowNode := .ref 1 } { BaseElement := .ref 2, Name := "n" } 1 2
    { ID := "c" } { ID := "n" } "renamed" (by decide) rfl (by decide) (by decide) (by decide)
    rfl (by decide)

/-! ## C24: reading through nil embedded pointers -/

/-- C24: for every `ServiceTask` whose pointers are live, reading
`StartQuantity` succeeds exactly when the embedded `Task` and that task's
embedded `Activity` are not nil, and it then yields the activity's
`StartQuantity`; reading `ID` succeeds exactly when, in addition, the
activity's `FlowNode` and the flow node's `BaseElement` are not nil.  For the
zero-value `ServiceTask` both reads fail, in every store. -/
theorem C24_promoted_reads_need_a_path_without_nil (h : Heap) (v : ServiceTask)
    (hl : v.pointersLive h = true) :
    ((∃ q, v.StartQuantity h = some q) ↔
      (v.Task ≠ .nil ∧ ∀ t, h.tasks.deref v.Task = some t → t.Activity ≠ .nil)) ∧
    (∀ t a, h.tasks.deref v.Task = some t → h.activities.deref t.Activity = some a →
      v.StartQuantity h = some a.StartQuantity) ∧
    ((∃ id, v.ID h = some id) ↔
      (v.Task ≠ .nil ∧ ∀ t, h.tasks.deref v.Task = some t → t.Activity ≠ .nil ∧
        ∀ a, h.activities.deref t.Activity = some a → a.FlowNode ≠ .nil ∧
          ∀ n, h.flowNodes.deref a.FlowNode = some n → n.BaseElement ≠ .nil)) ∧
    (∀ h0 : Heap, ({} : ServiceTask).StartQuantity h0 = none ∧
      ({} : ServiceTask).ID h0 = none) := by
  simp only [ServiceTask.pointersLive, Bool.and_eq_true] at hl
  obtain ⟨hlt, hl⟩ := hl
  have rSQ : ∀ t a, h.tasks.deref v.Task = some t → h.activities.deref t.Activity = some a →
      v.StartQuantity h = some a.StartQuantity := by
    intro t a ht ha
    simp only [ServiceTask.StartQuantity, Task.StartQuantity, ht, ha, Option.bind_eq_bind,
      Option.some_bind]
    rfl
  refine ⟨⟨?_, ?_⟩, rSQ, ⟨?_, ?_⟩, fun h0 => ⟨rfl, rfl⟩⟩
  · rintro ⟨q, hq⟩
    cases ht : h.tasks.deref v.Task with
    | none =>
      simp [ServiceTask.StartQuantity, ht] at hq
    | some t =>
      refine ⟨ne_nil_of_deref _ _ _ ht, ?_⟩
      intro t' ht' e
      cases ht'
      have hnil : h.activities.deref t.Activity = none := by
        rw [e]
        rfl
      simp [ServiceTask.StartQuantity, Task.StartQuantity, ht, hnil] at hq
  · rintro ⟨hne, hall⟩
    obtain ⟨t, ht⟩ := deref_of_live _ _ hlt hne
    simp only [ht, Bool.and_eq_true] at hl
    obtain ⟨a, ha⟩ := deref_of_live _ _ hl.1 (hall t ht)
    exact ⟨_, rSQ t a ht ha⟩
  · rintro ⟨id, hid⟩
    cases ht : h.tasks.deref v.Task with
    | none =>
      simp [ServiceTask.ID, ht] at hid
    | some t =>
      refine ⟨ne_nil_of_deref _ _ _ ht, ?_⟩
      intro t' ht'
      cases ht'
      cases ha : h.activities.deref t.Activity with
      | none =>
        simp [ServiceTask.ID, Heap.activityID, ht, ha] at hid
      | some a =>
        refine ⟨ne_nil_of_deref _ _ _ ha, ?_⟩
        intro a' ha'
        cases ha'
        cases hn : h.flowNodes.deref a.FlowNode with
        | none =>
          simp [ServiceTask.ID, Heap.activityID, Heap.flowNodeID, ht, ha, hn] at hid
        | some n =>
          refine ⟨ne_nil_of_deref _ _ _ hn, ?_⟩
          intro n' hn' e
          cases hn'
          have hnil : h.baseElements.deref n.BaseElement = none := by
            rw [e]
            rfl
          simp [ServiceTask.ID, Heap.activityID, Heap.flowNodeID, ht, ha, hn, hnil] at hid
  · rintro ⟨hne, hall⟩
    obtain ⟨t, ht⟩ := deref_of_live _ _ hlt hne
    simp only [ht, Bool.and_eq_true] at hl
    obtain ⟨hta, hall⟩ := hall t ht
    obtain ⟨a, ha⟩ := deref_of_live _ _ hl.1 hta
    have hl2 := hl.2
    simp only [ha, Bool.and_eq_true] at hl2
    obtain ⟨han, hall⟩ := hall a ha
    obtain ⟨n, hn⟩ := deref_of_live _ _ hl2.1 han
    have hl3 := hl2.2
    simp only [hn] at hl3
    obtain ⟨b, hb⟩ := deref_of_live _ _ hl3 (hall n hn)
    refine ⟨b.ID, ?_⟩
    simp only [ServiceTask.ID, Heap.activityID, Heap.flowNodeID, ht, ha, hn, hb,
      Option.bind_eq_bind, Option.some_bind]
    rfl

/-- C24 (witness): service task `T` of the scenario, whose embedded pointers
are all set: both reads succeed. -/
theorem C24_promoted_reads_need_a_path_without_nil_witness :
    scenarioServiceTask.pointersLive scenario = true ∧
    scenarioServiceTask.StartQuantity scenario = some 1 ∧
    scenarioServiceTask.ID scenario = some "T" ∧
    (((∃ q, scenarioServiceTask.StartQuantity scenario = some q) ↔
      (scenarioServiceTask.Task ≠ .nil ∧
        ∀ t, scenario.tasks.deref scenarioServiceTask.Task = some t → t.Activity ≠ .nil)) ∧
    (∀ t a, scenario.tasks.deref scenarioServiceTask.Task = some t →
      scenario.activities.deref t.Activity = some a →
      scenarioServiceTask.StartQuantity scenario = some a.StartQuantity) ∧
    ((∃ id, scenarioServiceTask.ID scenario = some id) ↔
      (scenarioServiceTask.Task ≠ .nil ∧
        ∀ t, scenario.tasks.deref scenarioServiceTask.Task = some t → t.Activity ≠ .nil ∧
          ∀ a, scenario.activities.deref t.Activity = some a → a.FlowNode ≠ .nil ∧
            ∀ n, scenario.flowNodes.deref a.FlowNode = some n → n.BaseElement ≠ .nil)) ∧
    (∀ h0 : Heap, ({} : ServiceTask).StartQuantity h0 = none ∧
      ({} : ServiceTask).ID h0 = none)) :=
  ⟨by decide, by decide, by decide,
    C24_promoted_reads_need_a_path_without_nil scenario scenarioServiceTask (by decide)⟩

end Core
